import Mathlib

/-!
Shallow embedding of the contract-signoff compliance views of this repository
(the SQL view definitions `CAM_ACTIVITY_SIGNOFF`, `DC_QUALIFIED_SIGNOFF`,
`CAM_ACTIVITY_NEVER_SIGNOFF`, `CAM_ACTIVITY_RISK_SIGNOFF`).  Tables are lists
of records, joins are list binds with equality filters, `LEFT JOIN` is modelled
by null-extending with `Option`, and the pinned run instant (`current_date` /
`current_timestamp`) is an explicit parameter.
-/

namespace Signoff

/-! ### Calendar arithmetic (for `dateadd(day, …)` / `dateadd(month, …)`) -/

/-- Gregorian leap-year test. -/
def isLeap (y : Nat) : Bool := (y % 4 == 0 && y % 100 != 0) || y % 400 == 0

/-- Length in days of month `m` (1-12) of year `y`. -/
def monthLen (y m : Nat) : Nat :=
  if m == 2 then (if isLeap y then 29 else 28)
  else if m == 4 || m == 6 || m == 9 || m == 11 then 30
  else 31

/-- A calendar date (year, month 1-12, day 1-…). -/
structure Date where
  year : Nat
  month : Nat
  day : Nat
deriving DecidableEq, Repr

/-- Days in year `y` strictly before month `m`. -/
def daysBeforeMonth (y m : Nat) : Nat :=
  (List.range (m - 1)).foldl (fun acc i => acc + monthLen y (i + 1)) 0

/-- Day number of a date (days since 0001-01-01); `dateadd(day, n, d)` is
`toDays d + n` at the day-number level. -/
def toDays (d : Date) : Nat :=
  let y := d.year - 1
  365 * y + y / 4 - y / 100 + y / 400 + daysBeforeMonth d.year d.month + (d.day - 1)

/-- `dateadd(month, n, d)`: advance `n` calendar months, clamping the day of
month to the length of the target month. -/
def addMonths (d : Date) (n : Nat) : Date :=
  let m0 := d.month - 1 + n
  let y := d.year + m0 / 12
  let m := m0 % 12 + 1
  ⟨y, m, min d.day (monthLen y m)⟩

/-! ### Timestamps (`CREATE_DTM` is a timestamp; `::date` takes its day part,
`datediff(day, a, b)` is the difference of the day parts) -/

/-- A timestamp: day number of its date part plus a time-of-day ordinal. -/
structure Dtm where
  day : Nat
  tod : Nat
deriving DecidableEq, Repr

/-- Strict timestamp order (lexicographic on day, then time of day). -/
def DtmLt (a b : Dtm) : Prop := a.day < b.day ∨ (a.day = b.day ∧ a.tod < b.tod)

instance (a b : Dtm) : Decidable (DtmLt a b) := by
  unfold DtmLt; infer_instance

/-- Binary maximum of two timestamps, used for `max(CREATE_DTM)`. -/
def dtmMax (a b : Dtm) : Dtm := if DtmLt a b then b else a

/-! ### Input tables (one structure per source table, source column names) -/

/-- A row of `CPS_DSCI_API.dc_BOOKINGS_CONTRACTS`. -/
structure DcBookingsContract where
  booking_contract : Nat
  agreement_start_date : Date
  agreement_end_date : Date
  is_deleted : Bool
  sold_as_service_type_id : Nat
  buying_program_type_id : Nat
  booked_theater_id : Nat
  sold_as_pricing_type_id : Nat
  booking_country : String
  account_name : String
  sold_as_sw_allocation : Int
  sold_as_hw_allocation : Int
deriving DecidableEq, Repr

/-- A row of `CPS_DSCI_API.DC_WF_IB_SIGNOFF` (the signoff event store). -/
structure DcWfIbSignoff where
  booking_contract : Nat
  dc_user_id : Nat
  create_dtm : Dtm
  signoff_method_id : Nat
  sign_off_identity_id : Nat
  defer_signoff_reason_id : Nat
  dc_engagement_id : Nat
  signoff_event_id : Nat
  notes : String
  is_deleted : Bool
deriving DecidableEq, Repr

/-- A row of `CPS_DSCI_API.DC_USERS`. -/
structure DcUser where
  user_id : Nat
  user_title : String
  cisco_cco_id : Option String
  is_deleted : Bool
deriving DecidableEq, Repr

/-- A row of `CPS_DSCI_API.organizational_hierarchy`. -/
structure OrganizationalHierarchy where
  emp_cco_id : String
  emp_cco_id_masked : Option String
  emp_name : String
  mgr_name : Option String
  dc_theater : Option String
  level6_cisco_worker_name : Option String
  level7_cisco_worker_name : Option String
  level8_cisco_worker_name : Option String
  level9_cisco_worker_name : Option String
deriving DecidableEq, Repr

/-- A row of `CPS_DSCI_ARCHIVE.DIM_DATE_NEW` (keyed by day number). -/
structure DimDateNew where
  date : Nat
  fiscal_qtr_sorted_name : String
  fiscal_mth_sorted_name : String
  cal_week_sorted_short_name : String
deriving DecidableEq, Repr

/-- A row of `CPS_DSCI_API.DC_TYP_SIGNOFF_METHOD`. -/
structure DcTypSignoffMethod where
  signoff_method_id : Nat
  signoff_method : String
deriving DecidableEq, Repr

/-- A row of `CPS_DSCI_API.DC_TYP_SIGN_OFF_IDENTITY`. -/
structure DcTypSignOffIdentity where
  sign_off_identity_id : Nat
  sign_off_identity : String
deriving DecidableEq, Repr

/-- A row of `CPS_DSCI_API.dc_typ_defer_signoff_reason`. -/
structure DcTypDeferSignoffReason where
  defer_signoff_reason_id : Nat
  defer_signoff_reason : String
deriving DecidableEq, Repr

/-- A row of `CPS_DSCI_API.DC_ENGAGEMENT_HDR`. -/
structure DcEngagementHdr where
  dc_engagement_id : Nat
  engagement_name : String
deriving DecidableEq, Repr

/-- A row of `CPS_DSCI_API.DC_TYP_SIGNOFF_EVENT`. -/
structure DcTypSignoffEvent where
  signoff_event_id : Nat
  signoff_event : String
deriving DecidableEq, Repr

/-- A row of `CPS_DSCI_API.DC_SOLD_AS_SERVICE_TYPES`. -/
structure DcSoldAsServiceType where
  service_type_id : Nat
  sold_as_service_name : String
deriving DecidableEq, Repr

/-- A row of `CPS_DSCI_API.dc_buying_programs`. -/
structure DcBuyingProgram where
  buying_program_type_id : Nat
  buying_program_name : String
deriving DecidableEq, Repr

/-- A row of `CPS_DSCI_API.dc_theater`. -/
structure DcTheater where
  theater_id : Nat
  theater_name : String
deriving DecidableEq, Repr

/-- A row of `CPS_DSCI_API.dc_pricing_model`. -/
structure DcPricingModel where
  pricing_type_id : Nat
  pricing_model_name : String
deriving DecidableEq, Repr

/-- A row of `CPS_DSCI_API.dc_BOOKINGS_CONTRACTS_RESPONSIBLE_USERS`. -/
structure DcBookingsContractsResponsibleUser where
  booking_contract : Nat
  dc_user_id : Nat
  is_deleted : Bool
deriving DecidableEq, Repr

/-- One immutable input snapshot: the tables read by the four views. -/
structure Snapshot where
  dc_bookings_contracts : List DcBookingsContract
  dc_wf_ib_signoff : List DcWfIbSignoff
  dc_users : List DcUser
  organizational_hierarchy : List OrganizationalHierarchy
  dim_date_new : List DimDateNew
  dc_typ_signoff_method : List DcTypSignoffMethod
  dc_typ_sign_off_identity : List DcTypSignOffIdentity
  dc_typ_defer_signoff_reason : List DcTypDeferSignoffReason
  dc_engagement_hdr : List DcEngagementHdr
  dc_typ_signoff_event : List DcTypSignoffEvent
  dc_sold_as_service_types : List DcSoldAsServiceType
  dc_buying_programs : List DcBuyingProgram
  dc_theater : List DcTheater
  dc_pricing_model : List DcPricingModel
  dc_bookings_contracts_responsible_users : List DcBookingsContractsResponsibleUser
deriving Repr

/-! ### Relational helpers -/

/-- `nvl(x, d)`: the value when present, the default when null. -/
def nvl (o : Option String) (dflt : String) : String := o.getD dflt

/-- Null-extension of a `LEFT JOIN` for one left row: the matching right rows,
or a single null row when there is no match. -/
def leftJoin {α : Type} (hits : List α) : List (Option α) :=
  if hits.isEmpty then [none] else hits.map some

/-! ### The `hier` CTE (identical text in views 2, 4 and 5)

```sql
select distinct LEVEL6.., LEVEL7.., LEVEL8.., LEVEL9.., u.USER_ID, h.EMP_NAME,
       h.mgr_name, h.emp_cco_id_masked, h.dc_theater as THEATER,
       u.USER_TITLE as ROLE, u.USER_ID as DC_USER_ID
from DC_USERS u
left join organizational_hierarchy h on (concat(h.emp_cco_id, '@cisco.com') = u.CISCO_CCO_ID)
where u.IS_DELETED = 'F' and emp_cco_id_masked is not null
```
The `where emp_cco_id_masked is not null` filter discards every null-extended
row of the left join, so the CTE holds exactly the matched pairs. -/

/-- A row of the `hier` CTE. -/
structure HierRow where
  level6_cisco_worker_name : Option String
  level7_cisco_worker_name : Option String
  level8_cisco_worker_name : Option String
  level9_cisco_worker_name : Option String
  emp_name : String
  mgr_name : Option String
  emp_cco_id_masked : Option String
  theater : Option String
  role : String
  dc_user_id : Nat
deriving DecidableEq, Repr

/-- The `hier` CTE. -/
def hierCte (snap : Snapshot) : List HierRow :=
  (snap.dc_users.flatMap fun u =>
    snap.organizational_hierarchy.flatMap fun h =>
      if u.is_deleted = false ∧ some (h.emp_cco_id ++ "@cisco.com") = u.cisco_cco_id ∧
         h.emp_cco_id_masked ≠ none then
        [{ level6_cisco_worker_name := h.level6_cisco_worker_name
           level7_cisco_worker_name := h.level7_cisco_worker_name
           level8_cisco_worker_name := h.level8_cisco_worker_name
           level9_cisco_worker_name := h.level9_cisco_worker_name
           emp_name := h.emp_name
           mgr_name := h.mgr_name
           emp_cco_id_masked := h.emp_cco_id_masked
           theater := h.dc_theater
           role := u.user_title
           dc_user_id := u.user_id }]
      else []).dedup

/-! ### View 2: `CAM_ACTIVITY_SIGNOFF` (history-with-flag pipeline) -/

/-- Strict precedence in the window order
`order by s.CREATE_DTM desc, s.DC_USER_ID` of the `mx_so_per_bc` ranking:
`a` sorts strictly before `b` when `a` has the later timestamp, or the same
timestamp and the smaller user id (`DC_USER_ID` ascending, the SQL default). -/
def keyBefore (a b : Dtm × Nat) : Prop :=
  DtmLt b.1 a.1 ∨ (a.1 = b.1 ∧ a.2 < b.2)

instance (a b : Dtm × Nat) : Decidable (keyBefore a b) := by
  unfold keyBefore; infer_instance

/-- The grouped keys `(BOOKING_CONTRACT, CREATE_DTM, DC_USER_ID)` of the
`mx_so_per_bc` CTE of view 2: non-deleted, non-deferred (`SIGNOFF_METHOD_ID != 7`)
events of non-deleted contracts with
`current_date between AGREEMENT_START_DATE and dateadd(day, 30, AGREEMENT_END_DATE)`. -/
def camMxKeys (snap : Snapshot) (today : Nat) : List (Nat × Dtm × Nat) :=
  (snap.dc_wf_ib_signoff.flatMap fun s =>
    snap.dc_bookings_contracts.flatMap fun c =>
      if c.booking_contract = s.booking_contract ∧ c.is_deleted = false ∧
         toDays c.agreement_start_date ≤ today ∧
         today ≤ toDays c.agreement_end_date + 30 ∧
         s.signoff_method_id ≠ 7 ∧ s.is_deleted = false then
        [(s.booking_contract, s.create_dtm, s.dc_user_id)]
      else []).dedup

/-- `rank() over (partition by BOOKING_CONTRACT order by CREATE_DTM desc, DC_USER_ID)`
of a grouped key: one plus the number of keys of the same contract sorting
strictly before it. -/
def camOrderv (keys : List (Nat × Dtm × Nat)) (bc : Nat) (k : Dtm × Nat) : Nat :=
  1 + (keys.filter fun t => decide (t.1 = bc ∧ keyBefore t.2 k)).length

/-- The `is_last_signoff` flag of the `so` CTE: the left join against
`mx_so_per_bc` on contract, timestamp, `orderv = 1` and user id found a match
(`case when mm.BOOKING_CONTRACT is null then 'N' else 'Y'`).  The grouped keys
are pairwise distinct and the join fixes every key column, so at most one `mm`
row can match and the left join never fans out: the flag is a plain boolean. -/
def camIsLastSignoff (snap : Snapshot) (today : Nat) (s : DcWfIbSignoff) : Bool :=
  let keys := camMxKeys snap today
  keys.any fun t =>
    decide (t.1 = s.booking_contract ∧ t.2.1 = s.create_dtm ∧
      camOrderv keys t.1 t.2 = 1 ∧ t.2.2 = s.dc_user_id)

/-- A row of the `so` CTE of view 2. -/
structure CamSoRow where
  notes : String
  sign_off_identity : String
  signoff_method : String
  defer_signoff_reason : String
  engagement_name : String
  dc_engagement_id : Nat
  booking_contract : Nat
  user_title : String
  fiscal_qtr_sorted_name : String
  fiscal_mth_sorted_name : String
  cal_week_sorted_short_name : String
  create_dtm : Dtm
  signoff_days_ago : Int
  dc_user_id : Nat
  signoff_create_dtm : Dtm
  is_last_signoff : Bool
deriving DecidableEq, Repr

/-- Row builder of the `so` CTE of view 2. -/
def camSoMk (snap : Snapshot) (now : Dtm) (s : DcWfIbSignoff)
    (sor : DcTypDeferSignoffReason) (e : DcEngagementHdr) (m : DcTypSignoffMethod)
    (i : DcTypSignOffIdentity) (u : DcUser) (d : DimDateNew) : CamSoRow :=
  { notes := s.notes
    sign_off_identity := i.sign_off_identity
    signoff_method := m.signoff_method
    defer_signoff_reason := sor.defer_signoff_reason
    engagement_name := e.engagement_name
    dc_engagement_id := e.dc_engagement_id
    booking_contract := s.booking_contract
    user_title := u.user_title
    fiscal_qtr_sorted_name := d.fiscal_qtr_sorted_name
    fiscal_mth_sorted_name := d.fiscal_mth_sorted_name
    cal_week_sorted_short_name := d.cal_week_sorted_short_name
    create_dtm := s.create_dtm
    signoff_days_ago := (now.day : Int) - (s.create_dtm.day : Int)
    dc_user_id := s.dc_user_id
    signoff_create_dtm := s.create_dtm
    is_last_signoff := camIsLastSignoff snap now.day s }

/-- The `so` CTE of view 2: non-deleted signoff events inner-joined to the
defer-reason, engagement, method, identity, user and calendar dimensions, each
carrying the `is_last_signoff` flag. -/
def camSo (snap : Snapshot) (now : Dtm) : List CamSoRow :=
  snap.dc_wf_ib_signoff.flatMap fun s =>
  snap.dc_typ_defer_signoff_reason.flatMap fun sor =>
  snap.dc_engagement_hdr.flatMap fun e =>
  snap.dc_typ_signoff_method.flatMap fun m =>
  snap.dc_typ_sign_off_identity.flatMap fun i =>
  snap.dc_users.flatMap fun u =>
  snap.dim_date_new.flatMap fun d =>
    if sor.defer_signoff_reason_id = s.defer_signoff_reason_id ∧
       e.dc_engagement_id = s.dc_engagement_id ∧
       m.signoff_method_id = s.signoff_method_id ∧
       i.sign_off_identity_id = s.sign_off_identity_id ∧
       u.user_id = s.dc_user_id ∧
       d.date = s.create_dtm.day ∧
       s.is_deleted = false then
      [camSoMk snap now s sor e m i u d]
    else []

/-- An output row of `CAM_ACTIVITY_SIGNOFF`; the `so.*` columns of the left
join are grouped into an `Option` (all null when the contract has no joined
event row). -/
structure CamActivitySignoffRow where
  sold_as_service_name : String
  booking_country : String
  buying_program_name : String
  pricing_model_name : String
  booked_theater : String
  reference_booking_contract : Nat
  so : Option CamSoRow
  level6_cisco_worker_name : String
  level7_cisco_worker_name : String
  level8_cisco_worker_name : String
  level9_cisco_worker_name : String
  emp_cco_id_masked : String
  mgr_name : String
  theater : String
  account_name : String
  sold_as_sw_allocation : Int
  sold_as_hw_allocation : Int
deriving DecidableEq, Repr

/-- Output row builder of view 2 (the `nvl(…, 'Not Assigned')` defaults). -/
def camRowMk (c : DcBookingsContract) (st : DcSoldAsServiceType)
    (bp : DcBuyingProgram) (t : DcTheater) (pm : DcPricingModel)
    (soRow : Option CamSoRow) (h : Option HierRow) : CamActivitySignoffRow :=
  { sold_as_service_name := st.sold_as_service_name
    booking_country := c.booking_country
    buying_program_name := bp.buying_program_name
    pricing_model_name := pm.pricing_model_name
    booked_theater := t.theater_name
    reference_booking_contract := c.booking_contract
    so := soRow
    level6_cisco_worker_name := nvl (h.bind (·.level6_cisco_worker_name)) "Not Assigned"
    level7_cisco_worker_name := nvl (h.bind (·.level7_cisco_worker_name)) "Not Assigned"
    level8_cisco_worker_name := nvl (h.bind (·.level8_cisco_worker_name)) "Not Assigned"
    level9_cisco_worker_name := nvl (h.bind (·.level9_cisco_worker_name)) "Not Assigned"
    emp_cco_id_masked := nvl (h.bind (·.emp_cco_id_masked)) "Not Assigned"
    mgr_name := nvl (h.bind (·.mgr_name)) "Not Assigned"
    theater := nvl (h.bind (·.theater)) "Not Assigned"
    account_name := c.account_name
    sold_as_sw_allocation := c.sold_as_sw_allocation
    sold_as_hw_allocation := c.sold_as_hw_allocation }

/-- View 2, `CAM_ACTIVITY_SIGNOFF`: contracts inside
`current_date between AGREEMENT_START_DATE and dateadd(month, 1, AGREEMENT_END_DATE)`,
inner-joined to the four contract dimensions, left-joined to `so`
(`on c.BOOKING_CONTRACT = so.BOOKING_CONTRACT and c.is_deleted = 'F'`) and to
`hier` (`on hier.DC_USER_ID = so.DC_USER_ID`).  The outer `WHERE` has no
`is_deleted` filter on the contract itself. -/
def camActivitySignoff (snap : Snapshot) (now : Dtm) : List CamActivitySignoffRow :=
  snap.dc_bookings_contracts.flatMap fun c =>
  snap.dc_sold_as_service_types.flatMap fun st =>
  snap.dc_buying_programs.flatMap fun bp =>
  snap.dc_theater.flatMap fun t =>
  snap.dc_pricing_model.flatMap fun pm =>
    if st.service_type_id = c.sold_as_service_type_id ∧
       bp.buying_program_type_id = c.buying_program_type_id ∧
       t.theater_id = c.booked_theater_id ∧
       pm.pricing_type_id = c.sold_as_pricing_type_id ∧
       toDays c.agreement_start_date ≤ now.day ∧
       now.day ≤ toDays (addMonths c.agreement_end_date 1) then
      (leftJoin ((camSo snap now).filter fun r =>
          decide (r.booking_contract = c.booking_contract ∧ c.is_deleted = false))).flatMap
        fun soRow =>
          (leftJoin ((hierCte snap).filter fun h =>
              match soRow with
              | some r => decide (h.dc_user_id = r.dc_user_id)
              | none => false)).map
            fun hRow => camRowMk c st bp t pm soRow hRow
    else []

/-! ### View 3: `DC_QUALIFIED_SIGNOFF` (qualification-status pipeline) -/

/-- The `mx_date` CTE of view 3:
`select BOOKING_CONTRACT, max(CREATE_DTM) from DC_WF_IB_SIGNOFF group by BOOKING_CONTRACT`.
It ranges over every row of the event store — no deletion filter and no
contract-eligibility filter. -/
def qualMxDate (snap : Snapshot) : List (Nat × Dtm) :=
  ((snap.dc_wf_ib_signoff.map (·.booking_contract)).dedup).filterMap fun bc =>
    match ((snap.dc_wf_ib_signoff.filter fun s =>
        decide (s.booking_contract = bc)).map (·.create_dtm)) with
    | [] => none
    | x :: xs => some (bc, xs.foldl dtmMax x)

/-- A row of the inner `so` CTE of view 3. -/
structure QualSoRow where
  booking_contract : Nat
  signoff_type : String
  last_signoff_date : Dtm
  ibv_method : String
  ibv_identity : String
  ibv_event : String
  notes : String
deriving DecidableEq, Repr

/-- Row builder of the inner `so` CTE of view 3, including the `signoff_type`
CASE over `SIGNOFF_METHOD_ID` (its `else 'sign_off_overdue'` arm is
unreachable because the first two arms cover every method id). -/
def qualSoMk (s : DcWfIbSignoff) (m : DcTypSignoffMethod) (i : DcTypSignOffIdentity)
    (e : DcTypSignoffEvent) (lastDate : Dtm) : QualSoRow :=
  { booking_contract := s.booking_contract
    signoff_type :=
      if s.signoff_method_id ≠ 7 then "Signed off"
      else if s.signoff_method_id = 7 then "Defered Signed off"
      else "sign_off_overdue"
    last_signoff_date := lastDate
    ibv_method := m.signoff_method
    ibv_identity := i.sign_off_identity
    ibv_event := e.signoff_event
    notes := s.notes }

/-- The inner `so` CTE of view 3: non-deleted events of eligible non-deleted
contracts (`current_date between AGREEMENT_START_DATE and dateadd(day, 30,
AGREEMENT_END_DATE)`), joined to the method/identity/event dimensions and to
`mx_date` on `(BOOKING_CONTRACT, CREATE_DTM = last_signoff_date)`, under a
`select distinct`. -/
def qualSo (snap : Snapshot) (today : Nat) : List QualSoRow :=
  (snap.dc_wf_ib_signoff.flatMap fun s =>
    snap.dc_typ_signoff_method.flatMap fun m =>
    snap.dc_typ_sign_off_identity.flatMap fun i =>
    snap.dc_typ_signoff_event.flatMap fun e =>
    (qualMxDate snap).flatMap fun mx =>
    snap.dc_bookings_contracts.flatMap fun c =>
      if m.signoff_method_id = s.signoff_method_id ∧
         i.sign_off_identity_id = s.sign_off_identity_id ∧
         e.signoff_event_id = s.signoff_event_id ∧
         mx.1 = s.booking_contract ∧ mx.2 = s.create_dtm ∧
         c.booking_contract = s.booking_contract ∧ c.is_deleted = false ∧
         toDays c.agreement_start_date ≤ today ∧
         today ≤ toDays c.agreement_end_date + 30 ∧
         s.is_deleted = false then
        [qualSoMk s m i e mx.2]
      else []).dedup

/-- An output row of `DC_QUALIFIED_SIGNOFF`. -/
structure DcQualifiedSignoffRow where
  booking_contract : Nat
  ibv_method : String
  ibv_identity : String
  ibv_event : String
  notes : String
  qualified_ibv : String
  days_since_last_signoff_event : Int
  last_signoff_date : Dtm
deriving DecidableEq, Repr

/-- Outer row builder of view 3: the unconditional 90-day override
(`case when DATEDIFF(day, last_signoff_date, current_date) > 90 then
'sign_off_overdue' else signoff_type end`). -/
def qualFinalMk (today : Nat) (r : QualSoRow) : DcQualifiedSignoffRow :=
  { booking_contract := r.booking_contract
    ibv_method := r.ibv_method
    ibv_identity := r.ibv_identity
    ibv_event := r.ibv_event
    notes := r.notes
    qualified_ibv :=
      if (today : Int) - (r.last_signoff_date.day : Int) > 90 then "sign_off_overdue"
      else r.signoff_type
    days_since_last_signoff_event := (today : Int) - (r.last_signoff_date.day : Int)
    last_signoff_date := r.last_signoff_date }

/-- View 3, `DC_QUALIFIED_SIGNOFF`: the qualified rows, under a
`select distinct`. -/
def dcQualifiedSignoff (snap : Snapshot) (today : Nat) : List DcQualifiedSignoffRow :=
  ((qualSo snap today).map (qualFinalMk today)).dedup

/-! ### View 4: `CAM_ACTIVITY_NEVER_SIGNOFF` (never-signed-off detector) -/

/-- The `NOT IN` subquery of view 4: contract ids of every event row of
`DC_WF_IB_SIGNOFF` joined to the defer-reason, engagement, method, identity,
user and calendar dimensions — with no filter on `s.is_deleted`. -/
def neverSignedBcs (snap : Snapshot) : List Nat :=
  snap.dc_wf_ib_signoff.flatMap fun s =>
  snap.dc_typ_defer_signoff_reason.flatMap fun sor =>
  snap.dc_engagement_hdr.flatMap fun e =>
  snap.dc_typ_signoff_method.flatMap fun m =>
  snap.dc_typ_sign_off_identity.flatMap fun i =>
  snap.dc_users.flatMap fun u =>
  snap.dim_date_new.flatMap fun d =>
    if sor.defer_signoff_reason_id = s.defer_signoff_reason_id ∧
       e.dc_engagement_id = s.dc_engagement_id ∧
       m.signoff_method_id = s.signoff_method_id ∧
       i.sign_off_identity_id = s.sign_off_identity_id ∧
       u.user_id = s.dc_user_id ∧
       d.date = s.create_dtm.day then
      [s.booking_contract]
    else []

/-- An output row of `CAM_ACTIVITY_NEVER_SIGNOFF`. -/
structure CamActivityNeverSignoffRow where
  booking_contract : Nat
  sold_as_service_name : String
  booking_country : String
  buying_program_name : String
  pricing_model_name : String
  booked_theater : String
  level6_cisco_worker_name : String
  level7_cisco_worker_name : String
  level8_cisco_worker_name : String
  level9_cisco_worker_name : String
  emp_cco_id_masked : String
  mgr_name : String
  theater : String
  account_name : String
  sold_as_sw_allocation : Int
  sold_as_hw_allocation : Int
deriving DecidableEq, Repr

/-- Output row builder of view 4. -/
def neverRowMk (c : DcBookingsContract) (st : DcSoldAsServiceType)
    (bp : DcBuyingProgram) (t : DcTheater) (pm : DcPricingModel)
    (h : Option HierRow) : CamActivityNeverSignoffRow :=
  { booking_contract := c.booking_contract
    sold_as_service_name := st.sold_as_service_name
    booking_country := c.booking_country
    buying_program_name := bp.buying_program_name
    pricing_model_name := pm.pricing_model_name
    booked_theater := t.theater_name
    level6_cisco_worker_name := nvl (h.bind (·.level6_cisco_worker_name)) "Not Assigned"
    level7_cisco_worker_name := nvl (h.bind (·.level7_cisco_worker_name)) "Not Assigned"
    level8_cisco_worker_name := nvl (h.bind (·.level8_cisco_worker_name)) "Not Assigned"
    level9_cisco_worker_name := nvl (h.bind (·.level9_cisco_worker_name)) "Not Assigned"
    emp_cco_id_masked := nvl (h.bind (·.emp_cco_id_masked)) "Not Assigned"
    mgr_name := nvl (h.bind (·.mgr_name)) "Not Assigned"
    theater := nvl (h.bind (·.theater)) "Not Assigned"
    account_name := c.account_name
    sold_as_sw_allocation := c.sold_as_sw_allocation
    sold_as_hw_allocation := c.sold_as_hw_allocation }

/-- View 4, `CAM_ACTIVITY_NEVER_SIGNOFF`: contracts inside the +1-month window
whose id is not in `neverSignedBcs`, inner-joined to the four contract
dimensions, left-joined to the non-deleted responsible-user assignments and to
`hier`.  The `WHERE` has no `is_deleted` filter on the contract. -/
def camActivityNeverSignoff (snap : Snapshot) (today : Nat) : List CamActivityNeverSignoffRow :=
  snap.dc_bookings_contracts.flatMap fun c =>
  snap.dc_sold_as_service_types.flatMap fun st =>
  snap.dc_buying_programs.flatMap fun bp =>
  snap.dc_theater.flatMap fun t =>
  snap.dc_pricing_model.flatMap fun pm =>
    if st.service_type_id = c.sold_as_service_type_id ∧
       bp.buying_program_type_id = c.buying_program_type_id ∧
       t.theater_id = c.booked_theater_id ∧
       pm.pricing_type_id = c.sold_as_pricing_type_id ∧
       toDays c.agreement_start_date ≤ today ∧
       today ≤ toDays (addMonths c.agreement_end_date 1) ∧
       c.booking_contract ∉ neverSignedBcs snap then
      (leftJoin (snap.dc_bookings_contracts_responsible_users.filter fun r =>
          decide (r.booking_contract = c.booking_contract ∧ r.is_deleted = false))).flatMap
        fun rRow =>
          (leftJoin ((hierCte snap).filter fun h =>
              match rRow with
              | some r => decide (h.dc_user_id = r.dc_user_id)
              | none => false)).map
            fun hRow => neverRowMk c st bp t pm hRow
    else []

/-! ### View 5: `CAM_ACTIVITY_RISK_SIGNOFF` (risk-bucket pipeline) -/

/-- The `mx_so_per_bc` CTE of view 5:
`select BOOKING_CONTRACT, max(CREATE_DTM) … group by BOOKING_CONTRACT`
over non-deleted, non-deferred events of non-deleted contracts with
`current_date between dateadd(month, 3, AGREEMENT_START_DATE) and AGREEMENT_END_DATE`. -/
def riskMx (snap : Snapshot) (today : Nat) : List (Nat × Dtm) :=
  let elig := snap.dc_wf_ib_signoff.flatMap fun s =>
    snap.dc_bookings_contracts.flatMap fun c =>
      if c.booking_contract = s.booking_contract ∧ c.is_deleted = false ∧
         toDays (addMonths c.agreement_start_date 3) ≤ today ∧
         today ≤ toDays c.agreement_end_date ∧
         s.signoff_method_id ≠ 7 ∧ s.is_deleted = false then
        [(s.booking_contract, s.create_dtm)]
      else []
  ((elig.map (·.1)).dedup).filterMap fun bc =>
    match ((elig.filter fun p => decide (p.1 = bc)).map (·.2)) with
    | [] => none
    | x :: xs => some (bc, xs.foldl dtmMax x)

/-- The `signoff_risk` CASE of view 5, evaluated top-down: `between 0 and 60`,
then `between 60 and 90`, then `> 90`; no default branch, so any remaining
value (a negative elapsed-day count) yields null. -/
def signoffRiskCase (d : Int) : Option String :=
  if 0 ≤ d ∧ d ≤ 60 then some "a_low_risk"
  else if 60 ≤ d ∧ d ≤ 90 then some "b_med_risk"
  else if d > 90 then some "c_high_risk"
  else none

/-- An output row of `CAM_ACTIVITY_RISK_SIGNOFF`. -/
structure CamActivityRiskSignoffRow where
  booking_contract : Nat
  sold_as_service_name : String
  booking_country : String
  buying_program_name : String
  pricing_model_name : String
  booked_theater : String
  level6_cisco_worker_name : String
  level7_cisco_worker_name : String
  level8_cisco_worker_name : String
  level9_cisco_worker_name : String
  emp_cco_id_masked : String
  mgr_name : String
  theater : String
  account_name : String
  sold_as_sw_allocation : Int
  sold_as_hw_allocation : Int
  signoff_days_ago : Int
  signoff_risk : Option String
deriving DecidableEq, Repr

/-- Output row builder of view 5 (the `risky` CTE row plus the outer
`signoff_risk` CASE). -/
def riskRowMk (c : DcBookingsContract) (st : DcSoldAsServiceType)
    (bp : DcBuyingProgram) (t : DcTheater) (pm : DcPricingModel)
    (h : Option HierRow) (daysAgo : Int) : CamActivityRiskSignoffRow :=
  { booking_contract := c.booking_contract
    sold_as_service_name := st.sold_as_service_name
    booking_country := c.booking_country
    buying_program_name := bp.buying_program_name
    pricing_model_name := pm.pricing_model_name
    booked_theater := t.theater_name
    level6_cisco_worker_name := nvl (h.bind (·.level6_cisco_worker_name)) "Not Assigned"
    level7_cisco_worker_name := nvl (h.bind (·.level7_cisco_worker_name)) "Not Assigned"
    level8_cisco_worker_name := nvl (h.bind (·.level8_cisco_worker_name)) "Not Assigned"
    level9_cisco_worker_name := nvl (h.bind (·.level9_cisco_worker_name)) "Not Assigned"
    emp_cco_id_masked := nvl (h.bind (·.emp_cco_id_masked)) "Not Assigned"
    mgr_name := nvl (h.bind (·.mgr_name)) "Not Assigned"
    theater := nvl (h.bind (·.theater)) "Not Assigned"
    account_name := c.account_name
    sold_as_sw_allocation := c.sold_as_sw_allocation
    sold_as_hw_allocation := c.sold_as_hw_allocation
    signoff_days_ago := daysAgo
    signoff_risk := signoffRiskCase daysAgo }

/-- View 5, `CAM_ACTIVITY_RISK_SIGNOFF`: the `mx_so_per_bc` rows joined (inner)
to their non-deleted contract and the four contract dimensions, left-joined to
the non-deleted responsible-user assignments and to `hier`, with
`signoff_days_ago = datediff(day, last_signoff_date, current_timestamp)` and
the `signoff_risk` CASE. -/
def camActivityRiskSignoff (snap : Snapshot) (now : Dtm) : List CamActivityRiskSignoffRow :=
  (riskMx snap now.day).flatMap fun mx =>
  snap.dc_bookings_contracts.flatMap fun c =>
  snap.dc_sold_as_service_types.flatMap fun st =>
  snap.dc_buying_programs.flatMap fun bp =>
  snap.dc_theater.flatMap fun t =>
  snap.dc_pricing_model.flatMap fun pm =>
    if c.booking_contract = mx.1 ∧ c.is_deleted = false ∧
       st.service_type_id = c.sold_as_service_type_id ∧
       bp.buying_program_type_id = c.buying_program_type_id ∧
       t.theater_id = c.booked_theater_id ∧
       pm.pricing_type_id = c.sold_as_pricing_type_id then
      (leftJoin (snap.dc_bookings_contracts_responsible_users.filter fun r =>
          decide (r.booking_contract = c.booking_contract ∧ r.is_deleted = false))).flatMap
        fun rRow =>
          (leftJoin ((hierCte snap).filter fun h =>
              match rRow with
              | some r => decide (h.dc_user_id = r.dc_user_id)
              | none => false)).map
            fun hRow =>
              riskRowMk c st bp t pm hRow ((now.day : Int) - (mx.2.day : Int))
    else []

/-! ### Spec-level predicates used to state the claims -/

/-- The event/contract pairs admitted by the `mx_so_per_bc` ranking of view 2:
a non-deleted, non-deferred event `(bc, t, uid)` of a non-deleted contract
within the 30-day grace window used by that subquery. -/
def mxQualifies (snap : Snapshot) (today : Nat) (bc : Nat) (t : Dtm) (uid : Nat) : Prop :=
  (∃ s ∈ snap.dc_wf_ib_signoff, s.booking_contract = bc ∧ s.create_dtm = t ∧
     s.dc_user_id = uid ∧ s.signoff_method_id ≠ 7 ∧ s.is_deleted = false) ∧
  (∃ c ∈ snap.dc_bookings_contracts, c.booking_contract = bc ∧ c.is_deleted = false ∧
     toDays c.agreement_start_date ≤ today ∧ today ≤ toDays c.agreement_end_date + 30)

instance (snap : Snapshot) (today bc : Nat) (t : Dtm) (uid : Nat) :
    Decidable (mxQualifies snap today bc t uid) := by
  unfold mxQualifies; infer_instance

/-- `(t, uid)` is the rank-1 `(timestamp, user)` pair of contract `bc` in the
ranking of view 2: it qualifies, and every other qualifying pair of `bc` sorts
strictly after it under `CREATE_DTM` descending, `DC_USER_ID` ascending. -/
def isLastQualifying (snap : Snapshot) (today : Nat) (bc : Nat) (t : Dtm) (uid : Nat) : Prop :=
  mxQualifies snap today bc t uid ∧
  ∀ s ∈ snap.dc_wf_ib_signoff, s.booking_contract = bc →
    mxQualifies snap today bc s.create_dtm s.dc_user_id →
    (s.create_dtm = t ∧ s.dc_user_id = uid) ∨ keyBefore (t, uid) (s.create_dtm, s.dc_user_id)

instance (snap : Snapshot) (today bc : Nat) (t : Dtm) (uid : Nat) :
    Decidable (isLastQualifying snap today bc t uid) := by
  unfold isLastQualifying; infer_instance

/-- Referential integrity of one event row against the six dimension tables
joined by the `NOT IN` subquery of view 4 (the spec expects every event to
match exactly one row in each relevant dimension). -/
def eventDimsResolve (snap : Snapshot) (s : DcWfIbSignoff) : Prop :=
  (∃ sor ∈ snap.dc_typ_defer_signoff_reason,
     sor.defer_signoff_reason_id = s.defer_signoff_reason_id) ∧
  (∃ e ∈ snap.dc_engagement_hdr, e.dc_engagement_id = s.dc_engagement_id) ∧
  (∃ m ∈ snap.dc_typ_signoff_method, m.signoff_method_id = s.signoff_method_id) ∧
  (∃ i ∈ snap.dc_typ_sign_off_identity, i.sign_off_identity_id = s.sign_off_identity_id) ∧
  (∃ u ∈ snap.dc_users, u.user_id = s.dc_user_id) ∧
  (∃ d ∈ snap.dim_date_new, d.date = s.create_dtm.day)

instance (snap : Snapshot) (s : DcWfIbSignoff) : Decidable (eventDimsResolve snap s) := by
  unfold eventDimsResolve; infer_instance

/-! ### Concrete snapshots for counterexamples and witnesses -/

/-- Day number of the pinned run date 2024-08-15 of the example snapshots. -/
def day1 : Nat := toDays ⟨2024, 8, 15⟩

/-- The pinned `as_of` instant of the example snapshots. -/
def now1 : Dtm := ⟨day1, 0⟩

/-- Contract builder: all dimension ids 1, fixed payload columns. -/
def mkC (bc : Nat) (s e : Date) (del : Bool) : DcBookingsContract :=
  { booking_contract := bc
    agreement_start_date := s
    agreement_end_date := e
    is_deleted := del
    sold_as_service_type_id := 1
    buying_program_type_id := 1
    booked_theater_id := 1
    sold_as_pricing_type_id := 1
    booking_country := "US"
    account_name := "Acme"
    sold_as_sw_allocation := 0
    sold_as_hw_allocation := 0 }

/-- Event builder: defer reason, engagement and event type 1. -/
def mkE (bc uid : Nat) (t : Dtm) (meth ident : Nat) (nts : String) (del : Bool) :
    DcWfIbSignoff :=
  { booking_contract := bc
    dc_user_id := uid
    create_dtm := t
    signoff_method_id := meth
    sign_off_identity_id := ident
    defer_signoff_reason_id := 1
    dc_engagement_id := 1
    signoff_event_id := 1
    notes := nts
    is_deleted := del }

/-- Calendar-dimension row builder. -/
def mkDD (n : Nat) : DimDateNew :=
  { date := n
    fiscal_qtr_sorted_name := "Q"
    fiscal_mth_sorted_name := "M"
    cal_week_sorted_short_name := "W" }

/-- Snapshot exercising views 2, 3 and 4 at `now1`: contract 1 has two
non-deferred events tied on timestamp (user ids 1 and 2); contract 2 is inside
the +1-month window but outside the +30-day window; contract 3 is soft-deleted
with no events; contract 4 has no events; contract 5 has only a soft-deleted
event; contract 6 has one deferred (method 7) event.  The hierarchy extract is
empty. -/
def snap1 : Snapshot :=
  { dc_bookings_contracts :=
      [ mkC 1 ⟨2024,1,1⟩ ⟨2024,8,10⟩ false
      , mkC 2 ⟨2024,1,1⟩ ⟨2024,7,15⟩ false
      , mkC 3 ⟨2024,1,1⟩ ⟨2024,8,10⟩ true
      , mkC 4 ⟨2024,1,1⟩ ⟨2024,8,10⟩ false
      , mkC 5 ⟨2024,1,1⟩ ⟨2024,8,10⟩ false
      , mkC 6 ⟨2024,1,1⟩ ⟨2024,8,10⟩ false ]
    dc_wf_ib_signoff :=
      [ mkE 1 1 ⟨toDays ⟨2024,8,1⟩, 0⟩ 1 1 "n1" false
      , mkE 1 2 ⟨toDays ⟨2024,8,1⟩, 0⟩ 1 2 "n2" false
      , mkE 2 1 ⟨toDays ⟨2024,7,10⟩, 0⟩ 1 1 "n3" false
      , mkE 5 1 ⟨toDays ⟨2024,8,2⟩, 0⟩ 1 1 "n5" true
      , mkE 6 1 ⟨toDays ⟨2024,8,3⟩, 0⟩ 7 1 "n6" false ]
    dc_users := [ ⟨1, "T1", some "x@cisco.com", false⟩, ⟨2, "T2", none, false⟩ ]
    organizational_hierarchy := []
    dim_date_new := [ mkDD (toDays ⟨2024,8,1⟩), mkDD (toDays ⟨2024,7,10⟩),
                      mkDD (toDays ⟨2024,8,2⟩), mkDD (toDays ⟨2024,8,3⟩) ]
    dc_typ_signoff_method := [ ⟨1, "Electronic"⟩, ⟨7, "Defer"⟩ ]
    dc_typ_sign_off_identity := [ ⟨1, "Customer"⟩, ⟨2, "Partner"⟩ ]
    dc_typ_defer_signoff_reason := [ ⟨1, "NoReason"⟩ ]
    dc_engagement_hdr := [ ⟨1, "Eng1"⟩ ]
    dc_typ_signoff_event := [ ⟨1, "SO"⟩ ]
    dc_sold_as_service_types := [ ⟨1, "SvcA"⟩ ]
    dc_buying_programs := [ ⟨1, "BPA"⟩ ]
    dc_theater := [ ⟨1, "THA"⟩ ]
    dc_pricing_model := [ ⟨1, "PMA"⟩ ]
    dc_bookings_contracts_responsible_users := [] }

/-- Snapshot for the qualification resolver: contract 1 is eligible and
non-deleted; its latest event (2024-08-05) is soft-deleted, and its two
non-deleted events are tied at 2024-08-01 (methods 1 and 7). -/
def snap2 : Snapshot :=
  { dc_bookings_contracts := [ mkC 1 ⟨2024,1,1⟩ ⟨2024,8,10⟩ false ]
    dc_wf_ib_signoff :=
      [ mkE 1 1 ⟨toDays ⟨2024,8,5⟩, 0⟩ 1 1 "nd" true
      , mkE 1 1 ⟨toDays ⟨2024,8,1⟩, 0⟩ 1 1 "na" false
      , mkE 1 2 ⟨toDays ⟨2024,8,1⟩, 0⟩ 7 1 "nb" false ]
    dc_users := [ ⟨1, "T1", none, false⟩, ⟨2, "T2", none, false⟩ ]
    organizational_hierarchy := []
    dim_date_new := [ mkDD (toDays ⟨2024,8,1⟩), mkDD (toDays ⟨2024,8,5⟩) ]
    dc_typ_signoff_method := [ ⟨1, "Electronic"⟩, ⟨7, "Defer"⟩ ]
    dc_typ_sign_off_identity := [ ⟨1, "Customer"⟩ ]
    dc_typ_defer_signoff_reason := [ ⟨1, "NoReason"⟩ ]
    dc_engagement_hdr := [ ⟨1, "Eng1"⟩ ]
    dc_typ_signoff_event := [ ⟨1, "SO"⟩ ]
    dc_sold_as_service_types := [ ⟨1, "SvcA"⟩ ]
    dc_buying_programs := [ ⟨1, "BPA"⟩ ]
    dc_theater := [ ⟨1, "THA"⟩ ]
    dc_pricing_model := [ ⟨1, "PMA"⟩ ]
    dc_bookings_contracts_responsible_users := [] }

/-- Snapshot for the risk pipeline at `now1`: four eligible aged contracts
whose single non-deferred events lie 60, -5, 61 and 91 elapsed days from the
run instant. -/
def snapR : Snapshot :=
  { dc_bookings_contracts :=
      [ mkC 1 ⟨2024,1,1⟩ ⟨2024,12,31⟩ false
      , mkC 2 ⟨2024,1,1⟩ ⟨2024,12,31⟩ false
      , mkC 3 ⟨2024,1,1⟩ ⟨2024,12,31⟩ false
      , mkC 4 ⟨2024,1,1⟩ ⟨2024,12,31⟩ false ]
    dc_wf_ib_signoff :=
      [ mkE 1 1 ⟨day1 - 60, 0⟩ 1 1 "ra" false
      , mkE 2 1 ⟨day1 + 5, 0⟩ 1 1 "rb" false
      , mkE 3 1 ⟨day1 - 61, 0⟩ 1 1 "rc" false
      , mkE 4 1 ⟨day1 - 91, 0⟩ 1 1 "rd" false ]
    dc_users := [ ⟨1, "T1", none, false⟩ ]
    organizational_hierarchy := []
    dim_date_new := []
    dc_typ_signoff_method := [ ⟨1, "Electronic"⟩ ]
    dc_typ_sign_off_identity := [ ⟨1, "Customer"⟩ ]
    dc_typ_defer_signoff_reason := [ ⟨1, "NoReason"⟩ ]
    dc_engagement_hdr := [ ⟨1, "Eng1"⟩ ]
    dc_typ_signoff_event := [ ⟨1, "SO"⟩ ]
    dc_sold_as_service_types := [ ⟨1, "SvcA"⟩ ]
    dc_buying_programs := [ ⟨1, "BPA"⟩ ]
    dc_theater := [ ⟨1, "THA"⟩ ]
    dc_pricing_model := [ ⟨1, "PMA"⟩ ]
    dc_bookings_contracts_responsible_users := [] }

/-- Snapshot for the qualification eligibility window: a single non-deleted
contract with `agreement_end = 2024-06-30` and one event on 2024-06-20. -/
def snap8 : Snapshot :=
  { dc_bookings_contracts := [ mkC 1 ⟨2024,1,1⟩ ⟨2024,6,30⟩ false ]
    dc_wf_ib_signoff := [ mkE 1 1 ⟨toDays ⟨2024,6,20⟩, 0⟩ 1 1 "e8" false ]
    dc_users := [ ⟨1, "T1", none, false⟩ ]
    organizational_hierarchy := []
    dim_date_new := [ mkDD (toDays ⟨2024,6,20⟩) ]
    dc_typ_signoff_method := [ ⟨1, "Electronic"⟩ ]
    dc_typ_sign_off_identity := [ ⟨1, "Customer"⟩ ]
    dc_typ_defer_signoff_reason := [ ⟨1, "NoReason"⟩ ]
    dc_engagement_hdr := [ ⟨1, "Eng1"⟩ ]
    dc_typ_signoff_event := [ ⟨1, "SO"⟩ ]
    dc_sold_as_service_types := [ ⟨1, "SvcA"⟩ ]
    dc_buying_programs := [ ⟨1, "BPA"⟩ ]
    dc_theater := [ ⟨1, "THA"⟩ ]
    dc_pricing_model := [ ⟨1, "PMA"⟩ ]
    dc_bookings_contracts_responsible_users := [] }

/-- The `so`-part of the history row of contract 1's event by user 1 in
`snap1` (14 elapsed days at `now1`, flagged as last signoff). -/
def camSoE1 : CamSoRow :=
  { notes := "n1"
    sign_off_identity := "Customer"
    signoff_method := "Electronic"
    defer_signoff_reason := "NoReason"
    engagement_name := "Eng1"
    dc_engagement_id := 1
    booking_contract := 1
    user_title := "T1"
    fiscal_qtr_sorted_name := "Q"
    fiscal_mth_sorted_name := "M"
    cal_week_sorted_short_name := "W"
    create_dtm := ⟨toDays ⟨2024,8,1⟩, 0⟩
    signoff_days_ago := 14
    dc_user_id := 1
    signoff_create_dtm := ⟨toDays ⟨2024,8,1⟩, 0⟩
    is_last_signoff := true }

/-- The history-pipeline output row of `snap1` holding `camSoE1` (no hierarchy
match, so every attributed field is the sentinel). -/
def camRowE1 : CamActivitySignoffRow :=
  { sold_as_service_name := "SvcA"
    booking_country := "US"
    buying_program_name := "BPA"
    pricing_model_name := "PMA"
    booked_theater := "THA"
    reference_booking_contract := 1
    so := some camSoE1
    level6_cisco_worker_name := "Not Assigned"
    level7_cisco_worker_name := "Not Assigned"
    level8_cisco_worker_name := "Not Assigned"
    level9_cisco_worker_name := "Not Assigned"
    emp_cco_id_masked := "Not Assigned"
    mgr_name := "Not Assigned"
    theater := "Not Assigned"
    account_name := "Acme"
    sold_as_sw_allocation := 0
    sold_as_hw_allocation := 0 }

/-- A risk-pipeline output row of `snapR` (contract `bc`, `d` elapsed days,
no responsible user and no hierarchy match). -/
def riskRowW (bc : Nat) (d : Int) : CamActivityRiskSignoffRow :=
  { booking_contract := bc
    sold_as_service_name := "SvcA"
    booking_country := "US"
    buying_program_name := "BPA"
    pricing_model_name := "PMA"
    booked_theater := "THA"
    level6_cisco_worker_name := "Not Assigned"
    level7_cisco_worker_name := "Not Assigned"
    level8_cisco_worker_name := "Not Assigned"
    level9_cisco_worker_name := "Not Assigned"
    emp_cco_id_masked := "Not Assigned"
    mgr_name := "Not Assigned"
    theater := "Not Assigned"
    account_name := "Acme"
    sold_as_sw_allocation := 0
    sold_as_hw_allocation := 0
    signoff_days_ago := d
    signoff_risk := signoffRiskCase d }

/-- The qualification-pipeline output row of `snap8` as of 2024-07-29. -/
def qualRow8 : DcQualifiedSignoffRow :=
  { booking_contract := 1
    ibv_method := "Electronic"
    ibv_identity := "Customer"
    ibv_event := "SO"
    notes := "e8"
    qualified_ibv := "Signed off"
    days_since_last_signoff_event := 39
    last_signoff_date := ⟨toDays ⟨2024,6,20⟩, 0⟩ }

/-! ### Basic lemmas about the relational and temporal primitives -/

theorem mem_if_singleton {α : Type} {p : Prop} [Decidable p] {a b : α} :
    a ∈ (if p then [b] else ([] : List α)) ↔ p ∧ a = b := by
  split <;> simp_all

theorem mem_if_list {α : Type} {p : Prop} [Decidable p] {a : α} {l : List α} :
    a ∈ (if p then l else ([] : List α)) ↔ p ∧ a ∈ l := by
  split <;> simp_all

theorem mem_leftJoin {α : Type} {o : Option α} {l : List α} :
    o ∈ leftJoin l ↔ (l = [] ∧ o = none) ∨ ∃ a ∈ l, o = some a := by
  cases l with
  | nil => simp [leftJoin]
  | cons x xs =>
    simp only [leftJoin, List.isEmpty_cons, Bool.false_eq_true, if_false, List.mem_map]
    constructor
    · rintro ⟨a, ha, rfl⟩
      exact Or.inr ⟨a, ha, rfl⟩
    · rintro (⟨h, _⟩ | ⟨a, ha, rfl⟩)
      · cases h
      · exact ⟨a, ha, rfl⟩

theorem leftJoin_exists {α : Type} (l : List α) : ∃ o, o ∈ leftJoin l := by
  unfold leftJoin
  cases l with
  | nil => exact ⟨none, by simp⟩
  | cons x xs => exact ⟨some x, by simp⟩

theorem dtmLt_irrefl (a : Dtm) : ¬ DtmLt a a := by
  unfold DtmLt; omega

theorem dtmLt_asymm {a b : Dtm} : DtmLt a b → ¬ DtmLt b a := by
  unfold DtmLt; omega

theorem dtm_not_lt_trans {a b c : Dtm} : ¬ DtmLt a b → ¬ DtmLt b c → ¬ DtmLt a c := by
  unfold DtmLt; omega

theorem dtm_not_lt_antisymm {a b : Dtm} : ¬ DtmLt a b → ¬ DtmLt b a → a = b := by
  obtain ⟨d1, t1⟩ := a
  obtain ⟨d2, t2⟩ := b
  unfold DtmLt
  simp only [Dtm.mk.injEq]
  omega

theorem dtmMax_cases (a b : Dtm) : dtmMax a b = a ∨ dtmMax a b = b := by
  unfold dtmMax; split
  · exact Or.inr rfl
  · exact Or.inl rfl

theorem not_lt_dtmMax_left (a b : Dtm) : ¬ DtmLt (dtmMax a b) a := by
  unfold dtmMax; split
  · next h => exact dtmLt_asymm h
  · exact dtmLt_irrefl a

theorem not_lt_dtmMax_right (a b : Dtm) : ¬ DtmLt (dtmMax a b) b := by
  unfold dtmMax; split
  · exact dtmLt_irrefl b
  · next h => exact h

theorem foldl_dtmMax_mem (xs : List Dtm) (x : Dtm) :
    xs.foldl dtmMax x = x ∨ xs.foldl dtmMax x ∈ xs := by
  induction xs generalizing x with
  | nil => simp
  | cons z zs ih =>
    simp only [List.foldl_cons]
    rcases ih (dtmMax x z) with h | h
    · rcases dtmMax_cases x z with h2 | h2
      · exact Or.inl (h.trans h2)
      · exact Or.inr (by rw [h, h2]; exact List.mem_cons_self _ _)
    · exact Or.inr (List.mem_cons_of_mem _ h)

theorem foldl_dtmMax_not_lt (xs : List Dtm) (x : Dtm) :
    ∀ y, (y = x ∨ y ∈ xs) → ¬ DtmLt (xs.foldl dtmMax x) y := by
  induction xs generalizing x with
  | nil =>
    intro y hy
    rcases hy with h | h
    · subst h; exact dtmLt_irrefl _
    · cases h
  | cons z zs ih =>
    intro y hy
    simp only [List.foldl_cons]
    have hacc : ¬ DtmLt (zs.foldl dtmMax (dtmMax x z)) (dtmMax x z) :=
      ih (dtmMax x z) (dtmMax x z) (Or.inl rfl)
    rcases hy with h | hmem
    · subst h
      exact dtm_not_lt_trans hacc (not_lt_dtmMax_left _ z)
    · rcases List.mem_cons.mp hmem with h | hzs
      · subst h
        exact dtm_not_lt_trans hacc (not_lt_dtmMax_right x _)
      · exact ih (dtmMax x z) y (Or.inr hzs)

theorem keyBefore_irrefl (a : Dtm × Nat) : ¬ keyBefore a a := by
  unfold keyBefore DtmLt; omega

theorem keyBefore_asymm {a b : Dtm × Nat} : keyBefore a b → ¬ keyBefore b a := by
  obtain ⟨⟨d1, t1⟩, u1⟩ := a
  obtain ⟨⟨d2, t2⟩, u2⟩ := b
  unfold keyBefore DtmLt
  simp only [Prod.mk.injEq, Dtm.mk.injEq]
  omega

theorem keyBefore_trichotomy (a b : Dtm × Nat) : a = b ∨ keyBefore a b ∨ keyBefore b a := by
  obtain ⟨⟨d1, t1⟩, u1⟩ := a
  obtain ⟨⟨d2, t2⟩, u2⟩ := b
  unfold keyBefore DtmLt
  simp only [Prod.mk.injEq, Dtm.mk.injEq]
  omega

/-! ### Characterizing the `mx_so_per_bc` ranking of view 2 -/

theorem mem_camMxKeys {snap : Snapshot} {today : Nat} {k : Nat × Dtm × Nat} :
    k ∈ camMxKeys snap today ↔
    ∃ s ∈ snap.dc_wf_ib_signoff, ∃ c ∈ snap.dc_bookings_contracts,
      (c.booking_contract = s.booking_contract ∧ c.is_deleted = false ∧
       toDays c.agreement_start_date ≤ today ∧
       today ≤ toDays c.agreement_end_date + 30 ∧
       s.signoff_method_id ≠ 7 ∧ s.is_deleted = false) ∧
      k = (s.booking_contract, s.create_dtm, s.dc_user_id) := by
  simp only [camMxKeys, List.mem_dedup, List.mem_flatMap, mem_if_singleton]

theorem camMxKeys_iff {snap : Snapshot} {today bc : Nat} {t : Dtm} {uid : Nat} :
    (bc, t, uid) ∈ camMxKeys snap today ↔ mxQualifies snap today bc t uid := by
  rw [mem_camMxKeys]
  unfold mxQualifies
  constructor
  · rintro ⟨s, hs, c, hc, ⟨h1, h2, h3, h4, h5, h6⟩, heq⟩
    simp only [Prod.mk.injEq] at heq
    obtain ⟨hbc, hdtm, huid⟩ := heq
    exact ⟨⟨s, hs, hbc.symm, hdtm.symm, huid.symm, h5, h6⟩,
           ⟨c, hc, by rw [hbc]; exact h1, h2, h3, h4⟩⟩
  · rintro ⟨⟨s, hs, hbc, hdtm, huid, h5, h6⟩, ⟨c, hc, hcbc, h2, h3, h4⟩⟩
    exact ⟨s, hs, c, hc, ⟨by rw [hcbc, hbc], h2, h3, h4, h5, h6⟩,
           by rw [hbc, hdtm, huid]⟩

theorem camOrderv_eq_one_iff {keys : List (Nat × Dtm × Nat)} {bc : Nat} {k : Dtm × Nat} :
    camOrderv keys bc k = 1 ↔ ∀ t ∈ keys, ¬(t.1 = bc ∧ keyBefore t.2 k) := by
  unfold camOrderv
  constructor
  · intro h t ht hcond
    have hlen : (keys.filter fun t => decide (t.1 = bc ∧ keyBefore t.2 k)).length = 0 := by
      omega
    have hnil := List.length_eq_zero.mp hlen
    have hmem : t ∈ keys.filter fun t => decide (t.1 = bc ∧ keyBefore t.2 k) :=
      List.mem_filter.mpr ⟨ht, decide_eq_true hcond⟩
    rw [hnil] at hmem
    cases hmem
  · intro h
    have hnil : keys.filter (fun t => decide (t.1 = bc ∧ keyBefore t.2 k)) = [] := by
      rw [List.filter_eq_nil_iff]
      intro t ht
      simpa using h t ht
    rw [hnil]
    rfl

theorem camIsLastSignoff_iff {snap : Snapshot} {today : Nat} {s : DcWfIbSignoff} :
    camIsLastSignoff snap today s = true ↔
    isLastQualifying snap today s.booking_contract s.create_dtm s.dc_user_id := by
  unfold camIsLastSignoff
  rw [List.any_eq_true]
  constructor
  · rintro ⟨t, ht, hdec⟩
    obtain ⟨h1, h2, h3, h4⟩ := of_decide_eq_true hdec
    have hteq : t = (s.booking_contract, s.create_dtm, s.dc_user_id) := by
      obtain ⟨ta, tb, tc⟩ := t
      simp only at h1 h2 h4
      rw [h1, h2, h4]
    have hkey : (s.booking_contract, s.create_dtm, s.dc_user_id) ∈ camMxKeys snap today := by
      rwa [hteq] at ht
    rw [hteq] at h3
    constructor
    · exact camMxKeys_iff.mp hkey
    · intro s2 hs2 hbc2 hq2
      rcases keyBefore_trichotomy (s2.create_dtm, s2.dc_user_id)
          (s.create_dtm, s.dc_user_id) with heq | hb | hb
      · left
        exact ⟨congrArg (·.1) heq, congrArg (·.2) heq⟩
      · exfalso
        have hkey2 : (s.booking_contract, s2.create_dtm, s2.dc_user_id) ∈ camMxKeys snap today :=
          camMxKeys_iff.mpr hq2
        exact camOrderv_eq_one_iff.mp h3 _ hkey2 ⟨rfl, hb⟩
      · right; exact hb
  · rintro ⟨hq, hmax⟩
    refine ⟨(s.booking_contract, s.create_dtm, s.dc_user_id), camMxKeys_iff.mpr hq, ?_⟩
    apply decide_eq_true
    refine ⟨rfl, rfl, ?_, rfl⟩
    apply camOrderv_eq_one_iff.mpr
    rintro t ht ⟨htbc, htbefore⟩
    have hkey : (s.booking_contract, t.2.1, t.2.2) ∈ camMxKeys snap today := by
      have : t = (t.1, t.2.1, t.2.2) := rfl
      rw [this, htbc] at ht
      exact ht
    have hq2 : mxQualifies snap today s.booking_contract t.2.1 t.2.2 :=
      camMxKeys_iff.mp hkey
    obtain ⟨⟨s2, hs2, hs2bc, hs2dtm, hs2uid, hm7, hdel⟩, hc2⟩ := hq2
    have hq2' : mxQualifies snap today s.booking_contract s2.create_dtm s2.dc_user_id :=
      ⟨⟨s2, hs2, hs2bc, rfl, rfl, hm7, hdel⟩, hc2⟩
    rcases hmax s2 hs2 hs2bc hq2' with ⟨hdtm, huid⟩ | hafter
    · apply keyBefore_irrefl (s.create_dtm, s.dc_user_id)
      have ht2 : t.2 = (s.create_dtm, s.dc_user_id) := by
        have : t.2 = (t.2.1, t.2.2) := rfl
        rw [this, ← hs2dtm, ← hs2uid, hdtm, huid]
      rwa [ht2] at htbefore
    · apply keyBefore_asymm htbefore
      have ht2 : t.2 = (s2.create_dtm, s2.dc_user_id) := by
        have : t.2 = (t.2.1, t.2.2) := rfl
        rw [this, ← hs2dtm, ← hs2uid]
      rw [ht2]
      exact hafter

/-! ### Membership characterizations of the view bodies -/

theorem mem_camSo {snap : Snapshot} {now : Dtm} {q : CamSoRow} :
    q ∈ camSo snap now ↔
    ∃ s ∈ snap.dc_wf_ib_signoff, ∃ sor ∈ snap.dc_typ_defer_signoff_reason,
    ∃ e ∈ snap.dc_engagement_hdr, ∃ m ∈ snap.dc_typ_signoff_method,
    ∃ i ∈ snap.dc_typ_sign_off_identity, ∃ u ∈ snap.dc_users, ∃ d ∈ snap.dim_date_new,
      (sor.defer_signoff_reason_id = s.defer_signoff_reason_id ∧
       e.dc_engagement_id = s.dc_engagement_id ∧
       m.signoff_method_id = s.signoff_method_id ∧
       i.sign_off_identity_id = s.sign_off_identity_id ∧
       u.user_id = s.dc_user_id ∧
       d.date = s.create_dtm.day ∧
       s.is_deleted = false) ∧
      q = camSoMk snap now s sor e m i u d := by
  simp only [camSo, List.mem_flatMap, mem_if_singleton]

theorem mem_camActivitySignoff {snap : Snapshot} {now : Dtm} {row : CamActivitySignoffRow} :
    row ∈ camActivitySignoff snap now ↔
    ∃ c ∈ snap.dc_bookings_contracts, ∃ st ∈ snap.dc_sold_as_service_types,
    ∃ bp ∈ snap.dc_buying_programs, ∃ t ∈ snap.dc_theater, ∃ pm ∈ snap.dc_pricing_model,
      (st.service_type_id = c.sold_as_service_type_id ∧
       bp.buying_program_type_id = c.buying_program_type_id ∧
       t.theater_id = c.booked_theater_id ∧
       pm.pricing_type_id = c.sold_as_pricing_type_id ∧
       toDays c.agreement_start_date ≤ now.day ∧
       now.day ≤ toDays (addMonths c.agreement_end_date 1)) ∧
      ∃ soRow ∈ leftJoin ((camSo snap now).filter fun r =>
          decide (r.booking_contract = c.booking_contract ∧ c.is_deleted = false)),
      ∃ hRow ∈ leftJoin ((hierCte snap).filter fun h =>
          match soRow with
          | some r => decide (h.dc_user_id = r.dc_user_id)
          | none => false),
        camRowMk c st bp t pm soRow hRow = row := by
  simp only [camActivitySignoff, List.mem_flatMap, mem_if_list, List.mem_map]

theorem mem_qualSo {snap : Snapshot} {today : Nat} {q : QualSoRow} :
    q ∈ qualSo snap today ↔
    ∃ s ∈ snap.dc_wf_ib_signoff, ∃ m ∈ snap.dc_typ_signoff_method,
    ∃ i ∈ snap.dc_typ_sign_off_identity, ∃ e ∈ snap.dc_typ_signoff_event,
    ∃ mx ∈ qualMxDate snap, ∃ c ∈ snap.dc_bookings_contracts,
      (m.signoff_method_id = s.signoff_method_id ∧
       i.sign_off_identity_id = s.sign_off_identity_id ∧
       e.signoff_event_id = s.signoff_event_id ∧
       mx.1 = s.booking_contract ∧ mx.2 = s.create_dtm ∧
       c.booking_contract = s.booking_contract ∧ c.is_deleted = false ∧
       toDays c.agreement_start_date ≤ today ∧
       today ≤ toDays c.agreement_end_date + 30 ∧
       s.is_deleted = false) ∧
      q = qualSoMk s m i e mx.2 := by
  simp only [qualSo, List.mem_dedup, List.mem_flatMap, mem_if_singleton]

theorem mem_dcQualifiedSignoff {snap : Snapshot} {today : Nat} {r : DcQualifiedSignoffRow} :
    r ∈ dcQualifiedSignoff snap today ↔
    ∃ q ∈ qualSo snap today, r = qualFinalMk today q := by
  simp only [dcQualifiedSignoff, List.mem_dedup, List.mem_map, eq_comm]

theorem mem_qualMxDate {snap : Snapshot} {bc : Nat} {t : Dtm} :
    (bc, t) ∈ qualMxDate snap ↔
    (∃ s ∈ snap.dc_wf_ib_signoff, s.booking_contract = bc ∧ s.create_dtm = t) ∧
    (∀ s ∈ snap.dc_wf_ib_signoff, s.booking_contract = bc → ¬ DtmLt t s.create_dtm) := by
  unfold qualMxDate
  rw [List.mem_filterMap]
  constructor
  · rintro ⟨bc2, hbc2, hf⟩
    revert hf
    cases hL : ((snap.dc_wf_ib_signoff.filter fun s =>
        decide (s.booking_contract = bc2)).map (·.create_dtm)) with
    | nil => intro hf; cases hf
    | cons x xs =>
      intro hf
      simp only [Option.some.injEq, Prod.mk.injEq] at hf
      obtain ⟨hbceq, htfold⟩ := hf
      subst hbceq
      constructor
      · have hmemL : t ∈ x :: xs := by
          rw [← htfold]
          rcases foldl_dtmMax_mem xs x with h | h
          · rw [h]; exact List.mem_cons_self _ _
          · exact List.mem_cons_of_mem _ h
        rw [← hL] at hmemL
        rcases List.mem_map.mp hmemL with ⟨s, hs, hsdtm⟩
        rcases List.mem_filter.mp hs with ⟨hsmem, hsbc⟩
        exact ⟨s, hsmem, of_decide_eq_true hsbc, hsdtm⟩
      · intro s hs hsbc
        have hsL : s.create_dtm ∈ x :: xs := by
          rw [← hL]
          exact List.mem_map.mpr ⟨s, List.mem_filter.mpr ⟨hs, decide_eq_true hsbc⟩, rfl⟩
        rw [← htfold]
        exact foldl_dtmMax_not_lt xs x s.create_dtm (List.mem_cons.mp hsL)
  · rintro ⟨⟨s0, hs0, hs0bc, hs0dtm⟩, hmax⟩
    refine ⟨bc, ?_, ?_⟩
    · exact List.mem_dedup.mpr (List.mem_map.mpr ⟨s0, hs0, hs0bc⟩)
    · have hs0L : s0.create_dtm ∈ ((snap.dc_wf_ib_signoff.filter fun s =>
          decide (s.booking_contract = bc)).map (·.create_dtm)) :=
        List.mem_map.mpr ⟨s0, List.mem_filter.mpr ⟨hs0, decide_eq_true hs0bc⟩, rfl⟩
      revert hs0L
      cases hL : ((snap.dc_wf_ib_signoff.filter fun s =>
          decide (s.booking_contract = bc)).map (·.create_dtm)) with
      | nil => intro hs0L; cases hs0L
      | cons x xs =>
        intro _
        have hfold_mem : xs.foldl dtmMax x ∈ x :: xs := by
          rcases foldl_dtmMax_mem xs x with h | h
          · rw [h]; exact List.mem_cons_self _ _
          · exact List.mem_cons_of_mem _ h
        have hfold_attained : ∃ s1 ∈ snap.dc_wf_ib_signoff,
            s1.booking_contract = bc ∧ s1.create_dtm = xs.foldl dtmMax x := by
          rw [← hL] at hfold_mem
          rcases List.mem_map.mp hfold_mem with ⟨s1, hs1, hs1dtm⟩
          rcases List.mem_filter.mp hs1 with ⟨hs1mem, hs1bc⟩
          exact ⟨s1, hs1mem, of_decide_eq_true hs1bc, hs1dtm⟩
        have htL : t ∈ x :: xs := by
          rw [← hL]
          exact List.mem_map.mpr ⟨s0, List.mem_filter.mpr ⟨hs0, decide_eq_true hs0bc⟩, hs0dtm⟩
        have h1 : ¬ DtmLt (xs.foldl dtmMax x) t :=
          foldl_dtmMax_not_lt xs x t (List.mem_cons.mp htL)
        have h2 : ¬ DtmLt t (xs.foldl dtmMax x) := by
          rcases hfold_attained with ⟨s1, hs1, hs1bc, hs1dtm⟩
          rw [← hs1dtm]
          exact hmax s1 hs1 hs1bc
        show some (bc, xs.foldl dtmMax x) = some (bc, t)
        rw [dtm_not_lt_antisymm h1 h2]

theorem mem_neverSignedBcs {snap : Snapshot} {bc : Nat} :
    bc ∈ neverSignedBcs snap ↔
    ∃ s ∈ snap.dc_wf_ib_signoff, s.booking_contract = bc ∧ eventDimsResolve snap s := by
  unfold neverSignedBcs eventDimsResolve
  simp only [List.mem_flatMap, mem_if_singleton]
  constructor
  · rintro ⟨s, hs, sor, hsor, e, he, m, hm, i, hi, u, hu, d, hd,
      ⟨h1, h2, h3, h4, h5, h6⟩, heq⟩
    exact ⟨s, hs, heq.symm, ⟨sor, hsor, h1⟩, ⟨e, he, h2⟩, ⟨m, hm, h3⟩,
           ⟨i, hi, h4⟩, ⟨u, hu, h5⟩, ⟨d, hd, h6⟩⟩
  · rintro ⟨s, hs, hbc, ⟨sor, hsor, h1⟩, ⟨e, he, h2⟩, ⟨m, hm, h3⟩,
      ⟨i, hi, h4⟩, ⟨u, hu, h5⟩, ⟨d, hd, h6⟩⟩
    exact ⟨s, hs, sor, hsor, e, he, m, hm, i, hi, u, hu, d, hd,
           ⟨h1, h2, h3, h4, h5, h6⟩, hbc.symm⟩

theorem mem_camActivityNeverSignoff {snap : Snapshot} {today : Nat}
    {row : CamActivityNeverSignoffRow} :
    row ∈ camActivityNeverSignoff snap today ↔
    ∃ c ∈ snap.dc_bookings_contracts, ∃ st ∈ snap.dc_sold_as_service_types,
    ∃ bp ∈ snap.dc_buying_programs, ∃ t ∈ snap.dc_theater, ∃ pm ∈ snap.dc_pricing_model,
      (st.service_type_id = c.sold_as_service_type_id ∧
       bp.buying_program_type_id = c.buying_program_type_id ∧
       t.theater_id = c.booked_theater_id ∧
       pm.pricing_type_id = c.sold_as_pricing_type_id ∧
       toDays c.agreement_start_date ≤ today ∧
       today ≤ toDays (addMonths c.agreement_end_date 1) ∧
       c.booking_contract ∉ neverSignedBcs snap) ∧
      ∃ rRow ∈ leftJoin (snap.dc_bookings_contracts_responsible_users.filter fun r =>
          decide (r.booking_contract = c.booking_contract ∧ r.is_deleted = false)),
      ∃ hRow ∈ leftJoin ((hierCte snap).filter fun h =>
          match rRow with
          | some r => decide (h.dc_user_id = r.dc_user_id)
          | none => false),
        neverRowMk c st bp t pm hRow = row := by
  simp only [camActivityNeverSignoff, List.mem_flatMap, mem_if_list, List.mem_map]

theorem mem_camActivityRiskSignoff {snap : Snapshot} {now : Dtm}
    {row : CamActivityRiskSignoffRow} :
    row ∈ camActivityRiskSignoff snap now ↔
    ∃ mx ∈ riskMx snap now.day, ∃ c ∈ snap.dc_bookings_contracts,
    ∃ st ∈ snap.dc_sold_as_service_types, ∃ bp ∈ snap.dc_buying_programs,
    ∃ t ∈ snap.dc_theater, ∃ pm ∈ snap.dc_pricing_model,
      (c.booking_contract = mx.1 ∧ c.is_deleted = false ∧
       st.service_type_id = c.sold_as_service_type_id ∧
       bp.buying_program_type_id = c.buying_program_type_id ∧
       t.theater_id = c.booked_theater_id ∧
       pm.pricing_type_id = c.sold_as_pricing_type_id) ∧
      ∃ rRow ∈ leftJoin (snap.dc_bookings_contracts_responsible_users.filter fun r =>
          decide (r.booking_contract = c.booking_contract ∧ r.is_deleted = false)),
      ∃ hRow ∈ leftJoin ((hierCte snap).filter fun h =>
          match rRow with
          | some r => decide (h.dc_user_id = r.dc_user_id)
          | none => false),
        riskRowMk c st bp t pm hRow ((now.day : Int) - (mx.2.day : Int)) = row := by
  simp only [camActivityRiskSignoff, List.mem_flatMap, mem_if_list, List.mem_map]

/-! ### Arithmetic facts about the risk CASE -/

theorem signoffRiskCase_low {d : Int} (h0 : 0 ≤ d) (h60 : d ≤ 60) :
    signoffRiskCase d = some "a_low_risk" := by
  unfold signoffRiskCase
  rw [if_pos ⟨h0, h60⟩]

theorem signoffRiskCase_med {d : Int} (h61 : 61 ≤ d) (h90 : d ≤ 90) :
    signoffRiskCase d = some "b_med_risk" := by
  unfold signoffRiskCase
  rw [if_neg (by omega), if_pos (by omega)]

theorem signoffRiskCase_high {d : Int} (h : 90 < d) :
    signoffRiskCase d = some "c_high_risk" := by
  unfold signoffRiskCase
  rw [if_neg (by omega), if_neg (by omega), if_pos h]

theorem signoffRiskCase_neg {d : Int} (h : d < 0) :
    signoffRiskCase d = none := by
  unfold signoffRiskCase
  rw [if_neg (by omega), if_neg (by omega), if_neg (by omega)]

/-- Every risk-pipeline row computes its risk bucket by applying the CASE to
its own elapsed-day count. -/
theorem risk_row_case (snap : Snapshot) (now : Dtm) :
    ∀ row ∈ camActivityRiskSignoff snap now,
      row.signoff_risk = signoffRiskCase row.signoff_days_ago := by
  intro row hrow
  rcases mem_camActivityRiskSignoff.mp hrow with
    ⟨mx, hmx, c, hc, st, hst, bp, hbp, t, ht, pm, hpm, hconds, rRow, hr, hRow, hh, heq⟩
  subst heq
  rfl

/-- C7: for every row of the risk pipeline, elapsed days in `[0, 60]` yields
`a_low_risk` (in particular exactly 60, because the low-risk branch is tested
first), 61 through 90 yields `b_med_risk`, and strictly more than 90 yields
`c_high_risk`. -/
theorem C7_risk_bucket_boundaries (snap : Snapshot) (now : Dtm) :
    ∀ row ∈ camActivityRiskSignoff snap now,
      ((0 ≤ row.signoff_days_ago ∧ row.signoff_days_ago ≤ 60) →
         row.signoff_risk = some "a_low_risk") ∧
      ((61 ≤ row.signoff_days_ago ∧ row.signoff_days_ago ≤ 90) →
         row.signoff_risk = some "b_med_risk") ∧
      (90 < row.signoff_days_ago → row.signoff_risk = some "c_high_risk") := by
  intro row hrow
  have hcase := risk_row_case snap now row hrow
  exact ⟨fun hd => hcase.trans (signoffRiskCase_low hd.1 hd.2),
         fun hd => hcase.trans (signoffRiskCase_med hd.1 hd.2),
         fun hd => hcase.trans (signoffRiskCase_high hd)⟩

/-- C7 witness: in the concrete risk snapshot, rows with elapsed days 60, 61
and 91 land in the low, medium and high buckets respectively. -/
theorem C7_risk_bucket_boundaries_witness :
    riskRowW 1 60 ∈ camActivityRiskSignoff snapR now1 ∧
    (riskRowW 1 60).signoff_risk = some "a_low_risk" ∧
    riskRowW 3 61 ∈ camActivityRiskSignoff snapR now1 ∧
    (riskRowW 3 61).signoff_risk = some "b_med_risk" ∧
    riskRowW 4 91 ∈ camActivityRiskSignoff snapR now1 ∧
    (riskRowW 4 91).signoff_risk = some "c_high_risk" := by
  refine ⟨by decide, ?_, by decide, ?_, by decide, ?_⟩
  · exact (C7_risk_bucket_boundaries snapR now1 (riskRowW 1 60) (by decide)).1 (by decide)
  · exact (C7_risk_bucket_boundaries snapR now1 (riskRowW 3 61) (by decide)).2.1 (by decide)
  · exact (C7_risk_bucket_boundaries snapR now1 (riskRowW 4 91) (by decide)).2.2 (by decide)

/-- C10: a risk-pipeline row whose elapsed-day count is negative (resolved
event after the run instant) still appears, but its `signoff_risk` is null:
none of the three CASE branches covers negative values and there is no default
branch. -/
theorem C10_negative_days_null_risk (snap : Snapshot) (now : Dtm) :
    ∀ row ∈ camActivityRiskSignoff snap now,
      row.signoff_days_ago < 0 → row.signoff_risk = none := by
  intro row hrow hneg
  exact (risk_row_case snap now row hrow).trans (signoffRiskCase_neg hneg)

/-- C10 witness: in the concrete risk snapshot, the contract whose resolved
event lies 5 days in the future yields an output row with a null risk bucket. -/
theorem C10_negative_days_null_risk_witness :
    riskRowW 2 (-5) ∈ camActivityRiskSignoff snapR now1 ∧
    (riskRowW 2 (-5)).signoff_days_ago < 0 ∧
    (riskRowW 2 (-5)).signoff_risk = none := by
  refine ⟨by decide, by decide, ?_⟩
  exact C10_negative_days_null_risk snapR now1 (riskRowW 2 (-5)) (by decide) (by decide)

/-- C9: in the history pipeline, when the `hier` CTE holds no entry for the
user id of a row's signoff event — which covers deleted users, users with no
hierarchy match and hierarchy matches whose masked id is null — each of the
six attributed fields of that row equals the literal string "Not Assigned". -/
theorem C9_org_attribution_default (snap : Snapshot) (now : Dtm) :
    ∀ row ∈ camActivitySignoff snap now, ∀ q : CamSoRow, row.so = some q →
      (∀ h ∈ hierCte snap, h.dc_user_id ≠ q.dc_user_id) →
      row.level6_cisco_worker_name = "Not Assigned" ∧
      row.level7_cisco_worker_name = "Not Assigned" ∧
      row.level8_cisco_worker_name = "Not Assigned" ∧
      row.level9_cisco_worker_name = "Not Assigned" ∧
      row.mgr_name = "Not Assigned" ∧
      row.theater = "Not Assigned" := by
  intro row hrow q hq hnone
  rcases mem_camActivitySignoff.mp hrow with
    ⟨c, hc, st, hst, bp, hbp, t, ht, pm, hpm, hconds, soRow, hso, hRow, hh, heq⟩
  subst heq
  have hsoq : soRow = some q := hq
  rcases mem_leftJoin.mp hh with ⟨hnil, hnoneRow⟩ | ⟨h, hmem, hsome⟩
  · subst hnoneRow
    exact ⟨rfl, rfl, rfl, rfl, rfl, rfl⟩
  · exfalso
    rcases List.mem_filter.mp hmem with ⟨hhier, hpred⟩
    rw [hsoq] at hpred
    exact hnone h hhier (of_decide_eq_true hpred)

/-- C9 witness: in `snap1` (empty hierarchy extract) the row of contract 1's
flagged event carries the sentinel in all six attributed fields. -/
theorem C9_org_attribution_default_witness :
    camRowE1 ∈ camActivitySignoff snap1 now1 ∧
    camRowE1.so = some camSoE1 ∧
    (camRowE1.level6_cisco_worker_name = "Not Assigned" ∧
     camRowE1.level7_cisco_worker_name = "Not Assigned" ∧
     camRowE1.level8_cisco_worker_name = "Not Assigned" ∧
     camRowE1.level9_cisco_worker_name = "Not Assigned" ∧
     camRowE1.mgr_name = "Not Assigned" ∧
     camRowE1.theater = "Not Assigned") := by
  refine ⟨by decide, rfl, ?_⟩
  exact C9_org_attribution_default snap1 now1 camRowE1 (by decide) camSoE1 rfl (by decide)

/-- C8: every qualification-pipeline row belongs to a non-deleted contract
whose window `agreement_start ≤ as_of ≤ agreement_end + 30 days` holds, and on
the concrete contract ending 2024-06-30 the pipeline includes as-of 2024-07-29
and 2024-07-30 (the inclusive upper bound) and excludes as-of 2024-07-31. -/
theorem C8_qualification_window :
    (∀ (snap : Snapshot) (today : Nat), ∀ r ∈ dcQualifiedSignoff snap today,
      ∃ c ∈ snap.dc_bookings_contracts, r.booking_contract = c.booking_contract ∧
        c.is_deleted = false ∧ toDays c.agreement_start_date ≤ today ∧
        today ≤ toDays c.agreement_end_date + 30) ∧
    (∃ r ∈ dcQualifiedSignoff snap8 (toDays ⟨2024, 7, 29⟩), r.booking_contract = 1) ∧
    (∃ r ∈ dcQualifiedSignoff snap8 (toDays ⟨2024, 7, 30⟩), r.booking_contract = 1) ∧
    dcQualifiedSignoff snap8 (toDays ⟨2024, 7, 31⟩) = [] ∧
    (∀ c ∈ snap8.dc_bookings_contracts,
      c.agreement_end_date = ⟨2024, 6, 30⟩ ∧ c.is_deleted = false) := by
  refine ⟨?_, by decide, by decide, by decide, by decide⟩
  intro snap today r hr
  rcases mem_dcQualifiedSignoff.mp hr with ⟨q, hq, heq⟩
  rcases mem_qualSo.mp hq with ⟨s, hs, m, hm, i, hi, e, he, mx, hmx, c, hc, hconds, hqeq⟩
  obtain ⟨hm2, hi2, he2, hmx1, hmx2, hcbc, hcdel, hw1, hw2, hsdel⟩ := hconds
  subst heq
  subst hqeq
  exact ⟨c, hc, hcbc.symm, hcdel, hw1, hw2⟩

/-- C8 witness: the concrete inclusion at as-of 2024-07-29 instantiates the
universal window invariant. -/
theorem C8_qualification_window_witness :
    ∃ c ∈ snap8.dc_bookings_contracts,
      qualRow8.booking_contract = c.booking_contract ∧ c.is_deleted = false ∧
      toDays c.agreement_start_date ≤ toDays ⟨2024, 7, 29⟩ ∧
      toDays ⟨2024, 7, 29⟩ ≤ toDays c.agreement_end_date + 30 :=
  C8_qualification_window.1 snap8 (toDays ⟨2024, 7, 29⟩) qualRow8 (by decide)

/-- C3 (amended): every qualification-pipeline row carries the status of its
resolved event: `sign_off_overdue` whenever more than 90 days elapsed, else
"Signed off" for a non-deferred method and the literal "Defered Signed off"
(as spelled in the source) for method 7. -/
theorem C3_qualification_status (snap : Snapshot) (today : Nat) :
    ∀ r ∈ dcQualifiedSignoff snap today,
      ∃ s ∈ snap.dc_wf_ib_signoff,
        r.last_signoff_date = s.create_dtm ∧
        r.days_since_last_signoff_event = (today : Int) - (s.create_dtm.day : Int) ∧
        r.qualified_ibv =
          (if (today : Int) - (s.create_dtm.day : Int) > 90 then "sign_off_overdue"
           else if s.signoff_method_id ≠ 7 then "Signed off" else "Defered Signed off") := by
  intro r hr
  rcases mem_dcQualifiedSignoff.mp hr with ⟨q, hq, heq⟩
  rcases mem_qualSo.mp hq with ⟨s, hs, m, hm, i, hi, e, he, mx, hmx, c, hc, hconds, hqeq⟩
  obtain ⟨hm2, hi2, he2, hmx1, hmx2, hcbc, hcdel, hw1, hw2, hsdel⟩ := hconds
  subst heq
  subst hqeq
  refine ⟨s, hs, ?_, ?_, ?_⟩
  · exact hmx2
  · show (today : Int) - (mx.2.day : Int) = (today : Int) - (s.create_dtm.day : Int)
    rw [hmx2]
  · show (if (today : Int) - (mx.2.day : Int) > 90 then "sign_off_overdue"
      else if s.signoff_method_id ≠ 7 then "Signed off"
      else if s.signoff_method_id = 7 then "Defered Signed off" else "sign_off_overdue") = _
    rw [hmx2]
    by_cases h7 : s.signoff_method_id ≠ 7
    · rw [if_pos h7, if_pos h7]
    · rw [if_neg h7, if_neg h7, if_pos (not_not.mp h7)]

/-- C3 counterexample: a fresh deferred signoff yields the literal status
"Defered Signed off" — the source's spelling differs from the claim's literal
"Deferred Signed off", which never occurs in the output. -/
theorem C3_qualification_status_counterexample :
    (∃ r ∈ dcQualifiedSignoff snap1 day1, r.booking_contract = 6 ∧
       r.qualified_ibv = "Defered Signed off" ∧
       r.days_since_last_signoff_event ≤ 90) ∧
    (∀ s ∈ snap1.dc_wf_ib_signoff, s.booking_contract = 6 → s.signoff_method_id = 7) ∧
    (∀ r ∈ dcQualifiedSignoff snap1 day1, r.qualified_ibv ≠ "Deferred Signed off") ∧
    "Defered Signed off" ≠ "Deferred Signed off" := by decide

/-- C3 witness: the amended classification instantiated on the deferred-event
row of `snap1`. -/
theorem C3_qualification_status_witness :
    ∃ r ∈ dcQualifiedSignoff snap1 day1,
      ∃ s ∈ snap1.dc_wf_ib_signoff,
        r.last_signoff_date = s.create_dtm ∧
        r.days_since_last_signoff_event = (day1 : Int) - (s.create_dtm.day : Int) ∧
        r.qualified_ibv =
          (if (day1 : Int) - (s.create_dtm.day : Int) > 90 then "sign_off_overdue"
           else if s.signoff_method_id ≠ 7 then "Signed off" else "Defered Signed off") := by
  refine ⟨qualFinalMk day1 (qualSoMk (mkE 6 1 ⟨toDays ⟨2024,8,3⟩, 0⟩ 7 1 "n6" false)
    ⟨7, "Defer"⟩ ⟨1, "Customer"⟩ ⟨1, "SO"⟩ ⟨toDays ⟨2024,8,3⟩, 0⟩), by decide, ?_⟩
  exact C3_qualification_status snap1 day1 _ (by decide)

/-- C5: the soft-deleted contract 3 of `snap1` appears in both the
history-with-flag output and the never-signed-off output, because neither
view's outer WHERE filters the contract's deletion flag (the history view only
carries `c.is_deleted = 'F'` inside the LEFT JOIN condition); the
qualification pipeline does restrict to non-deleted contracts. -/
theorem C5_deleted_contract_in_output :
    (∃ row ∈ camActivitySignoff snap1 now1, row.reference_booking_contract = 3) ∧
    (∃ row ∈ camActivityNeverSignoff snap1 day1, row.booking_contract = 3) ∧
    (∀ c ∈ snap1.dc_bookings_contracts, c.booking_contract = 3 → c.is_deleted = true) ∧
    (∀ r ∈ dcQualifiedSignoff snap1 day1, ∀ c ∈ snap1.dc_bookings_contracts,
       r.booking_contract = c.booking_contract → c.is_deleted = false) := by decide

/-- C1 (amended): in the history pipeline, (a) a row's `is_last_signoff` flag
is true exactly when its event's `(timestamp, user id)` pair is the rank-1
pair of its contract under `CREATE_DTM` descending with ties broken by
`DC_USER_ID` ascending, ranked over the non-deleted non-deferred events of
non-deleted contracts inside the subquery's 30-day grace window; and (b) for
every eligible contract and every non-deleted event of it whose dimension
lookups resolve, the pipeline outputs a row carrying that event. -/
theorem C1_history_flag (snap : Snapshot) (now : Dtm) :
    (∀ row ∈ camActivitySignoff snap now, ∀ q : CamSoRow, row.so = some q →
      (q.is_last_signoff = true ↔
        isLastQualifying snap now.day q.booking_contract q.create_dtm q.dc_user_id)) ∧
    (∀ c ∈ snap.dc_bookings_contracts, c.is_deleted = false →
      toDays c.agreement_start_date ≤ now.day →
      now.day ≤ toDays (addMonths c.agreement_end_date 1) →
      (∃ st ∈ snap.dc_sold_as_service_types,
         st.service_type_id = c.sold_as_service_type_id) →
      (∃ bp ∈ snap.dc_buying_programs,
         bp.buying_program_type_id = c.buying_program_type_id) →
      (∃ t ∈ snap.dc_theater, t.theater_id = c.booked_theater_id) →
      (∃ pm ∈ snap.dc_pricing_model, pm.pricing_type_id = c.sold_as_pricing_type_id) →
      ∀ s ∈ snap.dc_wf_ib_signoff, s.booking_contract = c.booking_contract →
        s.is_deleted = false →
        (∃ sor ∈ snap.dc_typ_defer_signoff_reason,
           sor.defer_signoff_reason_id = s.defer_signoff_reason_id) →
        (∃ e ∈ snap.dc_engagement_hdr, e.dc_engagement_id = s.dc_engagement_id) →
        (∃ m ∈ snap.dc_typ_signoff_method, m.signoff_method_id = s.signoff_method_id) →
        (∃ i ∈ snap.dc_typ_sign_off_identity,
           i.sign_off_identity_id = s.sign_off_identity_id) →
        (∃ u ∈ snap.dc_users, u.user_id = s.dc_user_id) →
        (∃ d ∈ snap.dim_date_new, d.date = s.create_dtm.day) →
        ∃ row ∈ camActivitySignoff snap now,
          row.reference_booking_contract = c.booking_contract ∧
          ∃ q : CamSoRow, row.so = some q ∧ q.booking_contract = s.booking_contract ∧
            q.create_dtm = s.create_dtm ∧ q.dc_user_id = s.dc_user_id) := by
  constructor
  · intro row hrow q hq
    rcases mem_camActivitySignoff.mp hrow with
      ⟨c, hc, st, hst, bp, hbp, t, ht, pm, hpm, hconds, soRow, hso, hRow, hh, heq⟩
    subst heq
    have hsoq : soRow = some q := hq
    subst hsoq
    rcases mem_leftJoin.mp hso with ⟨_, hbad⟩ | ⟨a, hmem, hsome⟩
    · cases hbad
    · have haq : a = q := by
        injection hsome.symm
      subst haq
      rcases List.mem_filter.mp hmem with ⟨hcam, _⟩
      rcases mem_camSo.mp hcam with
        ⟨s, hs, sor, hsor, e, he, m, hm, i, hi, u, hu, d, hd, hconds2, hqeq⟩
      subst hqeq
      exact camIsLastSignoff_iff
  · rintro c hc hcdel hw1 hw2 ⟨st, hst, hsteq⟩ ⟨bp, hbp, hbpeq⟩ ⟨t, ht, hteq⟩
      ⟨pm, hpm, hpmeq⟩ s hs hsbc hsdel ⟨sor, hsor, hsoreq⟩ ⟨e, he, heeq⟩
      ⟨m, hm, hmeq⟩ ⟨i, hi, hieq⟩ ⟨u, hu, hueq⟩ ⟨d, hd, hdeq⟩
    have hq0 : camSoMk snap now s sor e m i u d ∈ camSo snap now :=
      mem_camSo.mpr ⟨s, hs, sor, hsor, e, he, m, hm, i, hi, u, hu, d, hd,
        ⟨hsoreq, heeq, hmeq, hieq, hueq, hdeq, hsdel⟩, rfl⟩
    have hq0f : camSoMk snap now s sor e m i u d ∈
        (camSo snap now).filter fun r =>
          decide (r.booking_contract = c.booking_contract ∧ c.is_deleted = false) :=
      List.mem_filter.mpr ⟨hq0, decide_eq_true ⟨hsbc, hcdel⟩⟩
    have hsomem : some (camSoMk snap now s sor e m i u d) ∈
        leftJoin ((camSo snap now).filter fun r =>
          decide (r.booking_contract = c.booking_contract ∧ c.is_deleted = false)) :=
      mem_leftJoin.mpr (Or.inr ⟨_, hq0f, rfl⟩)
    obtain ⟨hRow, hh⟩ := leftJoin_exists ((hierCte snap).filter fun h =>
      match some (camSoMk snap now s sor e m i u d) with
      | some r => decide (h.dc_user_id = r.dc_user_id)
      | none => false)
    refine ⟨camRowMk c st bp t pm (some (camSoMk snap now s sor e m i u d)) hRow,
      mem_camActivitySignoff.mpr ⟨c, hc, st, hst, bp, hbp, t, ht, pm, hpm,
        ⟨hsteq, hbpeq, hteq, hpmeq, hw1, hw2⟩,
        some (camSoMk snap now s sor e m i u d), hsomem, hRow, hh, rfl⟩,
      rfl, camSoMk snap now s sor e m i u d, rfl, rfl, rfl, rfl⟩

/-- C1 counterexample: in `snap1`, (i) the claim's descending tie-break elects
the user-2 event of contract 1 as rank-1, yet its row's flag is false (the
code's ascending tie-break elects user 1); (ii) contract 2 sits inside the
pipeline's 1-month window but outside the ranking subquery's 30-day window, so
its sole non-deferred event's row is unflagged although it is the rank-1 event
of the contract. -/
theorem C1_history_flag_counterexample :
    (∃ row ∈ camActivitySignoff snap1 now1, ∃ q : CamSoRow, row.so = some q ∧
       q.booking_contract = 1 ∧ q.dc_user_id = 2 ∧
       q.create_dtm = ⟨toDays ⟨2024,8,1⟩, 0⟩ ∧ q.is_last_signoff = false) ∧
    (∀ s ∈ snap1.dc_wf_ib_signoff, s.booking_contract = 1 → s.is_deleted = false →
       s.signoff_method_id ≠ 7 →
       DtmLt s.create_dtm ⟨toDays ⟨2024,8,1⟩, 0⟩ ∨
       (s.create_dtm = ⟨toDays ⟨2024,8,1⟩, 0⟩ ∧ s.dc_user_id ≤ 2)) ∧
    (∃ s ∈ snap1.dc_wf_ib_signoff, s.booking_contract = 1 ∧ s.is_deleted = false ∧
       s.signoff_method_id ≠ 7 ∧ s.create_dtm = ⟨toDays ⟨2024,8,1⟩, 0⟩ ∧
       s.dc_user_id = 2) ∧
    (∃ row ∈ camActivitySignoff snap1 now1, ∃ q : CamSoRow, row.so = some q ∧
       q.booking_contract = 2 ∧ q.dc_user_id = 1 ∧ q.is_last_signoff = false) ∧
    (∀ s ∈ snap1.dc_wf_ib_signoff, s.booking_contract = 2 →
       s.is_deleted = false ∧ s.signoff_method_id ≠ 7) ∧
    (∃ s ∈ snap1.dc_wf_ib_signoff, s.booking_contract = 2 ∧ s.dc_user_id = 1) ∧
    (∃ c ∈ snap1.dc_bookings_contracts, c.booking_contract = 2 ∧
       c.is_deleted = false) := by decide

/-- C1 witness: the per-event row existence of the amended claim instantiated
on contract 1's user-1 event of `snap1`. -/
theorem C1_history_flag_witness :
    ∃ row ∈ camActivitySignoff snap1 now1,
      row.reference_booking_contract = (mkC 1 ⟨2024,1,1⟩ ⟨2024,8,10⟩ false).booking_contract ∧
      ∃ q : CamSoRow, row.so = some q ∧
        q.booking_contract = (mkE 1 1 ⟨toDays ⟨2024,8,1⟩, 0⟩ 1 1 "n1" false).booking_contract ∧
        q.create_dtm = (mkE 1 1 ⟨toDays ⟨2024,8,1⟩, 0⟩ 1 1 "n1" false).create_dtm ∧
        q.dc_user_id = (mkE 1 1 ⟨toDays ⟨2024,8,1⟩, 0⟩ 1 1 "n1" false).dc_user_id :=
  (C1_history_flag snap1 now1).2 (mkC 1 ⟨2024,1,1⟩ ⟨2024,8,10⟩ false)
    (by decide) (by decide) (by decide) (by decide) (by decide) (by decide)
    (by decide) (by decide)
    (mkE 1 1 ⟨toDays ⟨2024,8,1⟩, 0⟩ 1 1 "n1" false)
    (by decide) (by decide) (by decide) (by decide) (by decide) (by decide)
    (by decide) (by decide) (by decide)

/-- C2 (amended): (i) every qualification-pipeline row resolves to a timestamp
attained by an event of its contract and maximal over **all** of that
contract's events, soft-deleted ones included; (ii) every non-deleted event
that attains that maximum (for an eligible non-deleted contract, with
resolving method/identity/event dimensions) is surfaced, so timestamp ties
fan out instead of collapsing to one winner. -/
theorem C2_qualification_resolution (snap : Snapshot) (today : Nat) :
    (∀ r ∈ dcQualifiedSignoff snap today,
      (∃ s ∈ snap.dc_wf_ib_signoff, s.booking_contract = r.booking_contract ∧
         s.create_dtm = r.last_signoff_date) ∧
      (∀ s ∈ snap.dc_wf_ib_signoff, s.booking_contract = r.booking_contract →
         ¬ DtmLt r.last_signoff_date s.create_dtm)) ∧
    (∀ s ∈ snap.dc_wf_ib_signoff, s.is_deleted = false →
      (∀ s2 ∈ snap.dc_wf_ib_signoff, s2.booking_contract = s.booking_contract →
         ¬ DtmLt s.create_dtm s2.create_dtm) →
      ∀ m ∈ snap.dc_typ_signoff_method, m.signoff_method_id = s.signoff_method_id →
      ∀ i ∈ snap.dc_typ_sign_off_identity,
        i.sign_off_identity_id = s.sign_off_identity_id →
      ∀ e ∈ snap.dc_typ_signoff_event, e.signoff_event_id = s.signoff_event_id →
      ∀ c ∈ snap.dc_bookings_contracts, c.booking_contract = s.booking_contract →
        c.is_deleted = false →
        toDays c.agreement_start_date ≤ today →
        today ≤ toDays c.agreement_end_date + 30 →
        qualFinalMk today (qualSoMk s m i e s.create_dtm) ∈
          dcQualifiedSignoff snap today) := by
  constructor
  · intro r hr
    rcases mem_dcQualifiedSignoff.mp hr with ⟨q, hq, heq⟩
    rcases mem_qualSo.mp hq with ⟨s, hs, m, hm, i, hi, e, he, mx, hmx, c, hc, hconds, hqeq⟩
    obtain ⟨hm2, hi2, he2, hmx1, hmx2, hcbc, hcdel, hw1, hw2, hsdel⟩ := hconds
    subst heq
    subst hqeq
    have hmx' : (mx.1, mx.2) ∈ qualMxDate snap := hmx
    rcases mem_qualMxDate.mp hmx' with ⟨hattained, hmaximal⟩
    constructor
    · exact ⟨s, hs, rfl, hmx2.symm⟩
    · intro s2 hs2 hs2bc
      show ¬ DtmLt mx.2 s2.create_dtm
      exact hmaximal s2 hs2 (by rw [hs2bc]; exact hmx1.symm)
  · intro s hs hsdel hmax m hm hmeq i hi hieq e he heeq c hc hcbc hcdel hw1 hw2
    have hmxmem : ((s.booking_contract, s.create_dtm) : Nat × Dtm) ∈ qualMxDate snap :=
      mem_qualMxDate.mpr ⟨⟨s, hs, rfl, rfl⟩, fun s2 hs2 hs2bc => hmax s2 hs2 hs2bc⟩
    exact mem_dcQualifiedSignoff.mpr ⟨qualSoMk s m i e s.create_dtm,
      mem_qualSo.mpr ⟨s, hs, m, hm, i, hi, e, he, (s.booking_contract, s.create_dtm),
        hmxmem, c, hc, ⟨hmeq, hieq, heeq, rfl, rfl, hcbc, hcdel, hw1, hw2, hsdel⟩, rfl⟩,
      rfl⟩

/-- C2 counterexample: in `snap2`, contract 1 is eligible and non-deleted and
its two non-deleted events are tied at the latest non-deleted timestamp with
resolvable dimensions — the claim would surface these tied rows — yet the
pipeline's output is empty, because a soft-deleted event holds the strict
maximum over all events and `mx_date` does not filter deletions. -/
theorem C2_qualification_resolution_counterexample :
    dcQualifiedSignoff snap2 day1 = [] ∧
    (∃ sa ∈ snap2.dc_wf_ib_signoff, ∃ sb ∈ snap2.dc_wf_ib_signoff,
       sa ≠ sb ∧ sa.is_deleted = false ∧ sb.is_deleted = false ∧
       sa.booking_contract = 1 ∧ sb.booking_contract = 1 ∧
       sa.create_dtm = sb.create_dtm ∧
       (∀ s ∈ snap2.dc_wf_ib_signoff, s.is_deleted = false →
          ¬ DtmLt sa.create_dtm s.create_dtm)) ∧
    (∃ c ∈ snap2.dc_bookings_contracts, c.booking_contract = 1 ∧
       c.is_deleted = false ∧ toDays c.agreement_start_date ≤ day1 ∧
       day1 ≤ toDays c.agreement_end_date + 30) ∧
    (∀ s ∈ snap2.dc_wf_ib_signoff,
       (∃ m ∈ snap2.dc_typ_signoff_method, m.signoff_method_id = s.signoff_method_id) ∧
       (∃ i ∈ snap2.dc_typ_sign_off_identity,
          i.sign_off_identity_id = s.sign_off_identity_id) ∧
       (∃ e ∈ snap2.dc_typ_signoff_event, e.signoff_event_id = s.signoff_event_id)) := by
  decide

/-- C2 witness: in `snap1` both events tied at contract 1's maximum timestamp
are surfaced by the pipeline. -/
theorem C2_qualification_resolution_witness :
    qualFinalMk day1 (qualSoMk (mkE 1 1 ⟨toDays ⟨2024,8,1⟩, 0⟩ 1 1 "n1" false)
      ⟨1, "Electronic"⟩ ⟨1, "Customer"⟩ ⟨1, "SO"⟩ ⟨toDays ⟨2024,8,1⟩, 0⟩) ∈
      dcQualifiedSignoff snap1 day1 ∧
    qualFinalMk day1 (qualSoMk (mkE 1 2 ⟨toDays ⟨2024,8,1⟩, 0⟩ 1 2 "n2" false)
      ⟨1, "Electronic"⟩ ⟨2, "Partner"⟩ ⟨1, "SO"⟩ ⟨toDays ⟨2024,8,1⟩, 0⟩) ∈
      dcQualifiedSignoff snap1 day1 := by
  constructor
  · exact (C2_qualification_resolution snap1 day1).2
      (mkE 1 1 ⟨toDays ⟨2024,8,1⟩, 0⟩ 1 1 "n1" false) (by decide) (by decide) (by decide)
      ⟨1, "Electronic"⟩ (by decide) (by decide)
      ⟨1, "Customer"⟩ (by decide) (by decide)
      ⟨1, "SO"⟩ (by decide) (by decide)
      (mkC 1 ⟨2024,1,1⟩ ⟨2024,8,10⟩ false) (by decide) (by decide) (by decide)
      (by decide) (by decide)
  · exact (C2_qualification_resolution snap1 day1).2
      (mkE 1 2 ⟨toDays ⟨2024,8,1⟩, 0⟩ 1 2 "n2" false) (by decide) (by decide) (by decide)
      ⟨1, "Electronic"⟩ (by decide) (by decide)
      ⟨2, "Partner"⟩ (by decide) (by decide)
      ⟨1, "SO"⟩ (by decide) (by decide)
      (mkC 1 ⟨2024,1,1⟩ ⟨2024,8,10⟩ false) (by decide) (by decide) (by decide)
      (by decide) (by decide)

/-- C4: a non-deleted eligible contract (with resolving contract dimensions,
and resolving event dimensions for its events) appears in the never-signed-off
output exactly when no row of the raw event store references it — the
anti-join ignores the events' own deletion flags, so a contract whose only
events are soft-deleted is still excluded. -/
theorem C4_never_signed_off (snap : Snapshot) (today : Nat) (c : DcBookingsContract)
    (hc : c ∈ snap.dc_bookings_contracts) (hdel : c.is_deleted = false)
    (hw1 : toDays c.agreement_start_date ≤ today)
    (hw2 : today ≤ toDays (addMonths c.agreement_end_date 1))
    (hst : ∃ st ∈ snap.dc_sold_as_service_types,
       st.service_type_id = c.sold_as_service_type_id)
    (hbp : ∃ bp ∈ snap.dc_buying_programs,
       bp.buying_program_type_id = c.buying_program_type_id)
    (hth : ∃ t ∈ snap.dc_theater, t.theater_id = c.booked_theater_id)
    (hpm : ∃ pm ∈ snap.dc_pricing_model,
       pm.pricing_type_id = c.sold_as_pricing_type_id)
    (hri : ∀ s ∈ snap.dc_wf_ib_signoff, s.booking_contract = c.booking_contract →
       eventDimsResolve snap s) :
    (∃ row ∈ camActivityNeverSignoff snap today,
       row.booking_contract = c.booking_contract) ↔
    (∀ s ∈ snap.dc_wf_ib_signoff, s.booking_contract ≠ c.booking_contract) := by
  constructor
  · rintro ⟨row, hrow, hrowbc⟩ s hs hsbc
    rcases mem_camActivityNeverSignoff.mp hrow with
      ⟨c2, hc2, st2, hst2, bp2, hbp2, t2, ht2, pm2, hpm2, hconds2, rRow, hr, hRow, hh, heq⟩
    obtain ⟨_, _, _, _, _, _, hnotin⟩ := hconds2
    apply hnotin
    have hc2bc : c2.booking_contract = c.booking_contract := by
      rw [← hrowbc, ← heq]
      rfl
    rw [hc2bc]
    exact mem_neverSignedBcs.mpr ⟨s, hs, hsbc, hri s hs hsbc⟩
  · intro hnone
    obtain ⟨st, hstm, hste⟩ := hst
    obtain ⟨bp, hbpm, hbpe⟩ := hbp
    obtain ⟨t, htm, hte⟩ := hth
    obtain ⟨pm, hpmm, hpme⟩ := hpm
    have hnotin : c.booking_contract ∉ neverSignedBcs snap := by
      intro hin
      rcases mem_neverSignedBcs.mp hin with ⟨s, hs, hsbc, _⟩
      exact hnone s hs hsbc
    obtain ⟨rRow, hr⟩ := leftJoin_exists
      (snap.dc_bookings_contracts_responsible_users.filter fun r =>
        decide (r.booking_contract = c.booking_contract ∧ r.is_deleted = false))
    obtain ⟨hRow, hh⟩ := leftJoin_exists ((hierCte snap).filter fun h =>
      match rRow with
      | some r => decide (h.dc_user_id = r.dc_user_id)
      | none => false)
    exact ⟨neverRowMk c st bp t pm hRow,
      mem_camActivityNeverSignoff.mpr ⟨c, hc, st, hstm, bp, hbpm, t, htm, pm, hpmm,
        ⟨hste, hbpe, hte, hpme, hw1, hw2, hnotin⟩, rRow, hr, hRow, hh, rfl⟩, rfl⟩

/-- C4 witness: in `snap1`, contract 4 (no events at all) appears in the
never-signed-off output, and contract 5 (whose only event is soft-deleted)
does not. -/
theorem C4_never_signed_off_witness :
    (∃ row ∈ camActivityNeverSignoff snap1 day1, row.booking_contract = 4) ∧
    ¬ (∃ row ∈ camActivityNeverSignoff snap1 day1, row.booking_contract = 5) := by
  constructor
  · exact (C4_never_signed_off snap1 day1 (mkC 4 ⟨2024,1,1⟩ ⟨2024,8,10⟩ false)
      (by decide) (by decide) (by decide) (by decide) (by decide) (by decide)
      (by decide) (by decide) (by decide)).mpr (by decide)
  · intro hex
    have hall := (C4_never_signed_off snap1 day1 (mkC 5 ⟨2024,1,1⟩ ⟨2024,8,10⟩ false)
      (by decide) (by decide) (by decide) (by decide) (by decide) (by decide)
      (by decide) (by decide) (by decide)).mp hex
    exact hall (mkE 5 1 ⟨toDays ⟨2024,8,2⟩, 0⟩ 1 1 "n5" true) (by decide) (by decide)

/-- C6: under referential integrity of the event store against the dimension
tables, no contract id appears in both the never-signed-off output and the
qualification-status output of the same snapshot and as-of date. -/
theorem C6_pipeline_disjointness (snap : Snapshot) (today : Nat) (bc : Nat)
    (hri : ∀ s ∈ snap.dc_wf_ib_signoff, eventDimsResolve snap s) :
    ¬ ((∃ row ∈ camActivityNeverSignoff snap today, row.booking_contract = bc) ∧
       (∃ r ∈ dcQualifiedSignoff snap today, r.booking_contract = bc)) := by
  rintro ⟨⟨row, hrow, hrowbc⟩, ⟨r, hr, hrbc⟩⟩
  rcases mem_dcQualifiedSignoff.mp hr with ⟨q, hq, heq⟩
  rcases mem_qualSo.mp hq with ⟨s, hs, m, hm, i, hi, e, he, mx, hmx, c, hc, hconds, hqeq⟩
  rcases mem_camActivityNeverSignoff.mp hrow with
    ⟨c2, hc2, st2, hst2, bp2, hbp2, t2, ht2, pm2, hpm2, hconds2, rRow, hr2, hRow, hh, heq2⟩
  obtain ⟨_, _, _, _, _, _, hnotin⟩ := hconds2
  apply hnotin
  have hsbc : s.booking_contract = c2.booking_contract := by
    have h1 : r.booking_contract = s.booking_contract := by
      rw [heq, hqeq]
      rfl
    have h2 : row.booking_contract = c2.booking_contract := by
      rw [← heq2]
      rfl
    rw [← h2, hrowbc, ← hrbc, h1]
  exact mem_neverSignedBcs.mpr ⟨s, hs, hsbc, hri s hs⟩

/-- C6 witness: instantiated on `snap1` and contract id 1. -/
theorem C6_pipeline_disjointness_witness :
    ¬ ((∃ row ∈ camActivityNeverSignoff snap1 day1, row.booking_contract = 1) ∧
       (∃ r ∈ dcQualifiedSignoff snap1 day1, r.booking_contract = 1)) :=
  C6_pipeline_disjointness snap1 day1 1 (by decide)

end Signoff
